import Mathlib

/-!
Verification development for the Eclipse OMR fork in this repository.

Part 1 embeds the Unix signal dispatcher, src/port/unix/omrsignal.c,
as pure Lean functions over an explicit dispatcher state.  Machine
integers (uint32_t bitmasks) are modelled as Nat with bitwise
operations; complement is taken within 32 bits.  OS calls (sigaction,
monitors, semaphores, memory allocation) are modelled as succeeding;
the monitor-protected sections are embedded as the state transformation
they perform, which is faithful for the sequential properties proved
here.

Part 2 embeds the optimizer orchestrator, the Optimizer.cpp translation
unit found at src/unnamed/part_001.
-/

namespace OMRSig

/-- Bit-test macro OMR_ARE_ALL_BITS_SET from omrutilbase (all bits of
the second argument are set in the first). -/
def OMR_ARE_ALL_BITS_SET (field bits : Nat) : Bool := field &&& bits == bits

/-- Bit-test macro OMR_ARE_ANY_BITS_SET (some bit of the second argument
is set in the first). -/
def OMR_ARE_ANY_BITS_SET (field bits : Nat) : Bool := field &&& bits != 0

/-- Bit-test macro OMR_ARE_NO_BITS_SET. -/
def OMR_ARE_NO_BITS_SET (field bits : Nat) : Bool := field &&& bits == 0

/-- Bit-test macro OMR_IS_ONLY_ONE_BIT_SET: the value is a power of two. -/
def OMR_IS_ONLY_ONE_BIT_SET (x : Nat) : Bool := x != 0 && (x &&& (x - 1) == 0)

/-- Bitwise complement of a uint32_t value (subtraction from the all-ones
32-bit word never borrows, so xor with it is the C operator on the
modelled masks, all of which fit in 32 bits). -/
def compl32 (x : Nat) : Nat := 4294967295 ^^^ x

/-- Modelled from the spec: the port-library flag layout of omrport.h is
not under src/.  Control bits occupy the low nibble; each signal flag is
a distinct higher bit or-ed with its sync/async type bit. -/
def OMRPORT_SIG_FLAG_MAY_RETURN : Nat := 1

/-- Modelled from the spec: control bit, may-continue-execution. -/
def OMRPORT_SIG_FLAG_MAY_CONTINUE_EXECUTION : Nat := 2

/-- Modelled from the spec: control bit marking a synchronous flag set. -/
def OMRPORT_SIG_FLAG_IS_SYNC : Nat := 4

/-- Modelled from the spec: control bit marking an asynchronous flag set. -/
def OMRPORT_SIG_FLAG_IS_ASYNC : Nat := 8

/-- Modelled from the spec: mask of the four control bits. -/
def OMRPORT_SIG_FLAG_CONTROL_BITS_MASK : Nat := 15

/-- Modelled from the spec: synchronous signal flag, SIGSEGV. -/
def OMRPORT_SIG_FLAG_SIGSEGV : Nat := 16 ||| OMRPORT_SIG_FLAG_IS_SYNC

/-- Modelled from the spec: synchronous signal flag, SIGBUS. -/
def OMRPORT_SIG_FLAG_SIGBUS : Nat := 32 ||| OMRPORT_SIG_FLAG_IS_SYNC

/-- Modelled from the spec: synchronous signal flag, SIGILL. -/
def OMRPORT_SIG_FLAG_SIGILL : Nat := 64 ||| OMRPORT_SIG_FLAG_IS_SYNC

/-- Modelled from the spec: synchronous signal flag, SIGFPE. -/
def OMRPORT_SIG_FLAG_SIGFPE : Nat := 128 ||| OMRPORT_SIG_FLAG_IS_SYNC

/-- Modelled from the spec: synchronous signal flag, SIGTRAP. -/
def OMRPORT_SIG_FLAG_SIGTRAP : Nat := 256 ||| OMRPORT_SIG_FLAG_IS_SYNC

/-- Modelled from the spec: asynchronous signal flag, SIGQUIT. -/
def OMRPORT_SIG_FLAG_SIGQUIT : Nat := 512 ||| OMRPORT_SIG_FLAG_IS_ASYNC

/-- Modelled from the spec: asynchronous signal flag, SIGABRT. -/
def OMRPORT_SIG_FLAG_SIGABRT : Nat := 1024 ||| OMRPORT_SIG_FLAG_IS_ASYNC

/-- Modelled from the spec: asynchronous signal flag, SIGTERM. -/
def OMRPORT_SIG_FLAG_SIGTERM : Nat := 2048 ||| OMRPORT_SIG_FLAG_IS_ASYNC

/-- Modelled from the spec: asynchronous signal flag, SIGXFSZ. -/
def OMRPORT_SIG_FLAG_SIGXFSZ : Nat := 4096 ||| OMRPORT_SIG_FLAG_IS_ASYNC

/-- Modelled from the spec: asynchronous signal flag, SIGINT. -/
def OMRPORT_SIG_FLAG_SIGINT : Nat := 8192 ||| OMRPORT_SIG_FLAG_IS_ASYNC

/-- Modelled from the spec: asynchronous signal flag, SIGHUP. -/
def OMRPORT_SIG_FLAG_SIGHUP : Nat := 16384 ||| OMRPORT_SIG_FLAG_IS_ASYNC

/-- Modelled from the spec: union of the modelled synchronous signal flags. -/
def OMRPORT_SIG_FLAG_SIGALLSYNC : Nat :=
  OMRPORT_SIG_FLAG_SIGSEGV ||| OMRPORT_SIG_FLAG_SIGBUS ||| OMRPORT_SIG_FLAG_SIGILL |||
  OMRPORT_SIG_FLAG_SIGFPE ||| OMRPORT_SIG_FLAG_SIGTRAP

/-- Modelled from the spec: union of the modelled asynchronous signal flags. -/
def OMRPORT_SIG_FLAG_SIGALLASYNC : Nat :=
  OMRPORT_SIG_FLAG_SIGQUIT ||| OMRPORT_SIG_FLAG_SIGABRT ||| OMRPORT_SIG_FLAG_SIGTERM |||
  OMRPORT_SIG_FLAG_SIGXFSZ ||| OMRPORT_SIG_FLAG_SIGINT ||| OMRPORT_SIG_FLAG_SIGHUP

/-- Modelled from the spec: option bit, reduced synchronous signals (-Xrs). -/
def OMRPORT_SIG_OPTIONS_REDUCED_SIGNALS_SYNCHRONOUS : Nat := 1

/-- Modelled from the spec: option bit, reduced asynchronous signals. -/
def OMRPORT_SIG_OPTIONS_REDUCED_SIGNALS_ASYNCHRONOUS : Nat := 2

/-- Modelled from the spec: option bit granting the SIGXFSZ exception. -/
def OMRPORT_SIG_OPTIONS_SIGXFSZ : Nat := 4

/-- Error return code OMRPORT_SIG_ERROR. -/
def OMRPORT_SIG_ERROR : Int := -1

/-- The signalMap table of omrsignal.c restricted to the modelled
signals: each entry pairs a port-library signal flag with its Unix
signal number. -/
def signalMap : List (Nat × Nat) :=
  [(OMRPORT_SIG_FLAG_SIGSEGV, 11),
   (OMRPORT_SIG_FLAG_SIGBUS, 7),
   (OMRPORT_SIG_FLAG_SIGILL, 4),
   (OMRPORT_SIG_FLAG_SIGFPE, 8),
   (OMRPORT_SIG_FLAG_SIGTRAP, 5),
   (OMRPORT_SIG_FLAG_SIGQUIT, 3),
   (OMRPORT_SIG_FLAG_SIGABRT, 6),
   (OMRPORT_SIG_FLAG_SIGTERM, 15),
   (OMRPORT_SIG_FLAG_SIGXFSZ, 25),
   (OMRPORT_SIG_FLAG_SIGINT, 2),
   (OMRPORT_SIG_FLAG_SIGHUP, 1)]

/-- Function mapPortLibSignalToOSSignal: linear search of signalMap by
port-library flag; none models the OMRPORT_SIG_ERROR return. -/
def mapPortLibSignalToOSSignal (portLibSignal : Nat) : Option Nat :=
  (signalMap.find? (fun p => p.1 == portLibSignal)).map (fun p => p.2)

/-- Function mapOSSignalToPortLib restricted to the no-siginfo case used
at shutdown: linear search of signalMap by Unix number, 0 if unknown. -/
def mapOSSignalToPortLib (signalNo : Nat) : Nat :=
  match signalMap.find? (fun p => p.2 == signalNo) with
  | some p => p.1
  | none => 0

/-- Struct OMRUnixAsyncHandlerRecord: one node of the process-global
async handler list (the next pointer is represented by list structure). -/
structure OMRUnixAsyncHandlerRecord where
  portLib : Nat
  handler : Nat
  handler_arg : Nat
  flags : Nat
deriving Repr, DecidableEq

/-- Stand-in code for the address of mainSynchSignalHandler. -/
def mainSynchSignalHandlerCode : Nat := 1001

/-- Stand-in code for the address of mainASynchSignalHandler. -/
def mainASynchSignalHandlerCode : Nat := 1002

/-- The process-global state of omrsignal.c: the option word, the four
handler bitmasks, the async handler list, the saved previous OS actions
(oldActions; none models restore==0), the current OS disposition per
Unix signal number (an opaque Nat code standing for a struct sigaction),
and the attach counter.  The per-thread synchronous handler stack of the
calling thread is included for omrsig_protect. -/
structure SigState where
  signalOptionsGlobal : Nat
  syncSignalsWithHandlers : Nat
  asyncSignalsWithHandlers : Nat
  syncSignalsWithMainHandlers : Nat
  asyncSignalsWithMainHandlers : Nat
  asyncHandlerList : List OMRUnixAsyncHandlerRecord
  oldActions : Nat → Option Nat
  osAction : Nat → Nat
  attachedPortLibraries : Nat
  handlerStack : List (Nat × Nat × Nat)

/-- Function setBitMaskSignalsWithHandlers of omrsignal.c. -/
def setBitMaskSignalsWithHandlers (flags : Nat) (s : SigState) : SigState :=
  if OMR_ARE_ALL_BITS_SET flags OMRPORT_SIG_FLAG_IS_SYNC then
    { s with syncSignalsWithHandlers := s.syncSignalsWithHandlers ||| flags }
  else
    { s with asyncSignalsWithHandlers := s.asyncSignalsWithHandlers ||| flags }

/-- Function unsetBitMaskSignalsWithHandlers of omrsignal.c (control bits
are preserved). -/
def unsetBitMaskSignalsWithHandlers (flags : Nat) (s : SigState) : SigState :=
  if OMR_ARE_ALL_BITS_SET flags OMRPORT_SIG_FLAG_IS_SYNC then
    { s with syncSignalsWithHandlers :=
        s.syncSignalsWithHandlers &&& compl32 (flags &&& compl32 OMRPORT_SIG_FLAG_CONTROL_BITS_MASK) }
  else
    { s with asyncSignalsWithHandlers :=
        s.asyncSignalsWithHandlers &&& compl32 (flags &&& compl32 OMRPORT_SIG_FLAG_CONTROL_BITS_MASK) }

/-- Function setBitMaskSignalsWithMainHandlers of omrsignal.c. -/
def setBitMaskSignalsWithMainHandlers (flags : Nat) (s : SigState) : SigState :=
  if OMR_ARE_ALL_BITS_SET flags OMRPORT_SIG_FLAG_IS_SYNC then
    { s with syncSignalsWithMainHandlers := s.syncSignalsWithMainHandlers ||| flags }
  else
    { s with asyncSignalsWithMainHandlers := s.asyncSignalsWithMainHandlers ||| flags }

/-- Function unsetBitMaskSignalsWithMainHandlers of omrsignal.c. -/
def unsetBitMaskSignalsWithMainHandlers (flags : Nat) (s : SigState) : SigState :=
  if OMR_ARE_ALL_BITS_SET flags OMRPORT_SIG_FLAG_IS_SYNC then
    { s with syncSignalsWithMainHandlers :=
        s.syncSignalsWithMainHandlers &&& compl32 (flags &&& compl32 OMRPORT_SIG_FLAG_CONTROL_BITS_MASK) }
  else
    { s with asyncSignalsWithMainHandlers :=
        s.asyncSignalsWithMainHandlers &&& compl32 (flags &&& compl32 OMRPORT_SIG_FLAG_CONTROL_BITS_MASK) }

/-- Function checkForAmbiguousSignalFlags of omrsignal.c, lines
2010-2028: a non-zero flags word is ambiguous when the sync and async
indicator bits are both set or both clear. -/
def checkForAmbiguousSignalFlags (flags : Nat) : Bool :=
  flags != 0 &&
    ((OMR_ARE_ALL_BITS_SET flags OMRPORT_SIG_FLAG_IS_SYNC &&
      OMR_ARE_ALL_BITS_SET flags OMRPORT_SIG_FLAG_IS_ASYNC) ||
     (OMR_ARE_NO_BITS_SET flags OMRPORT_SIG_FLAG_IS_SYNC &&
      OMR_ARE_NO_BITS_SET flags OMRPORT_SIG_FLAG_IS_ASYNC))

/-- Function registerSignalHandlerWithOS of omrsignal.c, lines
1259-1385, with the sigaction system call modelled as succeeding.  On
the first registration for a Unix signal the replaced OS action is
stored into oldActions and the restore flag is raised; on later
registrations the replaced action goes to a throw-away local and
oldActions is untouched.  The result pairs the new state with the
replaced OS action (the value written through oldOSHandler); none models
the OMRPORT_SIG_ERROR return for a signal absent from signalMap. -/
def registerSignalHandlerWithOS (portLibrarySignalNo handlerCode : Nat) (s : SigState) :
    Option (SigState × Nat) :=
  match mapPortLibSignalToOSSignal portLibrarySignalNo with
  | none => none
  | some unixSignalNo =>
    let replaced := s.osAction unixSignalNo
    let s1 :=
      match s.oldActions unixSignalNo with
      | none =>
        { s with
          oldActions := fun i => if i = unixSignalNo then some (s.osAction unixSignalNo) else s.oldActions i,
          osAction := fun i => if i = unixSignalNo then handlerCode else s.osAction i }
      | some _ =>
        { s with osAction := fun i => if i = unixSignalNo then handlerCode else s.osAction i }
    let s2 := setBitMaskSignalsWithHandlers portLibrarySignalNo s1
    let s3 :=
      if handlerCode == mainSynchSignalHandlerCode || handlerCode == mainASynchSignalHandlerCode then
        setBitMaskSignalsWithMainHandlers portLibrarySignalNo s2
      else
        unsetBitMaskSignalsWithMainHandlers portLibrarySignalNo s2
    some (s3, replaced)

/-- The per-bit body of the registration loop of registerMainHandlers,
lines 1527-1546: install a main handler for one signal bit unless the
masks recorded at loop entry say one is already installed. -/
def registerMainHandlersBit (signalsWithMainHandlersLocal signalType handlerCode : Nat)
    (portSignalFlag : Nat) (acc : Option (SigState × Nat)) : Option (SigState × Nat) :=
  match acc with
  | none => none
  | some (s, _old) =>
    let portSignalFlagWithType := portSignalFlag ||| signalType
    if !OMR_ARE_ALL_BITS_SET signalsWithMainHandlersLocal portSignalFlagWithType then
      registerSignalHandlerWithOS portSignalFlagWithType handlerCode s
    else
      some (s, handlerCode)

/-- The set bits of a 32-bit mask, lowest first: the source loop peels
the rightmost set bit of signalFlags each iteration. -/
def bitsOfMask (mask : Nat) : List Nat :=
  (List.range 32).filterMap (fun i => if mask.testBit i then some (2 ^ i) else none)

/-- Function registerMainHandlers of omrsignal.c, lines 1496-1550:
register the appropriate main handler for every signal bit of flags
inside allowedSubsetOfFlags that does not have one, iterating the set
bits from the rightmost as the source loop does.  The second component
of the result is the last value written through oldOSHandler; none
models the OMRPORT_SIG_ERROR return. -/
def registerMainHandlers (flags allowedSubsetOfFlags : Nat) (s : SigState) :
    Option (SigState × Nat) :=
  let signalFlags := (flags &&& allowedSubsetOfFlags) &&& compl32 OMRPORT_SIG_FLAG_CONTROL_BITS_MASK
  let signalType :=
    if OMR_ARE_ALL_BITS_SET flags OMRPORT_SIG_FLAG_IS_ASYNC then OMRPORT_SIG_FLAG_IS_ASYNC
    else OMRPORT_SIG_FLAG_IS_SYNC
  let signalsWithMainHandlersLocal :=
    if OMR_ARE_ALL_BITS_SET flags OMRPORT_SIG_FLAG_IS_ASYNC then s.asyncSignalsWithMainHandlers
    else s.syncSignalsWithMainHandlers
  if allowedSubsetOfFlags == OMRPORT_SIG_FLAG_SIGALLSYNC then
    if signalType == OMRPORT_SIG_FLAG_IS_SYNC then
      (bitsOfMask signalFlags).foldl
        (fun acc b => registerMainHandlersBit signalsWithMainHandlersLocal signalType mainSynchSignalHandlerCode b acc)
        (some (s, 0))
    else some (s, 0)
  else if allowedSubsetOfFlags == OMRPORT_SIG_FLAG_SIGALLASYNC then
    if signalType == OMRPORT_SIG_FLAG_IS_ASYNC then
      (bitsOfMask signalFlags).foldl
        (fun acc b => registerMainHandlersBit signalsWithMainHandlersLocal signalType mainASynchSignalHandlerCode b acc)
        (some (s, 0))
    else some (s, 0)
  else none

/-- Function omrsig_can_protect of omrsignal.c, lines 285-318 (non-z/OS
build): ambiguous flags fail, otherwise the supported-capability word is
assembled and compared against the request. -/
def omrsig_can_protect (flags : Nat) (s : SigState) : Int :=
  if checkForAmbiguousSignalFlags flags then OMRPORT_SIG_ERROR
  else
    let supportedFlags := OMRPORT_SIG_FLAG_MAY_RETURN ||| OMRPORT_SIG_FLAG_MAY_CONTINUE_EXECUTION
    let supportedFlags :=
      if OMR_ARE_NO_BITS_SET s.signalOptionsGlobal OMRPORT_SIG_OPTIONS_REDUCED_SIGNALS_SYNCHRONOUS then
        supportedFlags ||| OMRPORT_SIG_FLAG_SIGALLSYNC
      else supportedFlags
    if OMR_ARE_ALL_BITS_SET supportedFlags flags then 1 else 0

/-- Result of the modelled omrsig_protect: the return code, the
dispatcher state after the call, whether the protected function was
invoked, and the value stored through the result out-parameter. -/
structure ProtectResult where
  rc : Int
  state : SigState
  fnCalled : Bool
  result : Nat

/-- Function omrsig_protect of omrsignal.c, lines 357-432, on the normal
control path (the sigsetjmp return-from-dispatch path belongs to the
signal-delivery machinery and is not exercised by the claims proved
here).  The protected function is an opaque state transformer; the
per-thread tls handler stack is part of the state, the frame push uses
the record built at lines 393-397 and the pop at line 428 restores the
stack observed at entry. -/
def omrsig_protect (fn : SigState → SigState × Nat)
    (handler handler_arg : Nat) (flags : Nat) (s : SigState) : ProtectResult :=
  if checkForAmbiguousSignalFlags flags then
    { rc := OMRPORT_SIG_ERROR, state := s, fnCalled := false, result := 0 }
  else if OMR_ARE_ANY_BITS_SET s.signalOptionsGlobal OMRPORT_SIG_OPTIONS_REDUCED_SIGNALS_SYNCHRONOUS then
    let (s1, r) := fn s
    { rc := 0, state := s1, fnCalled := true, result := r }
  else
    let flagsSignalsOnly := flags &&& OMRPORT_SIG_FLAG_SIGALLSYNC
    let flagsWithoutMainHandlers :=
      (flagsSignalsOnly &&& compl32 s.syncSignalsWithMainHandlers) &&&
        compl32 OMRPORT_SIG_FLAG_CONTROL_BITS_MASK
    let installed : Option SigState :=
      if flagsWithoutMainHandlers != 0 then
        match registerMainHandlers flags OMRPORT_SIG_FLAG_SIGALLSYNC s with
        | none => none
        | some (s1, _) => some s1
      else some s
    match installed with
    | none => { rc := OMRPORT_SIG_ERROR, state := s, fnCalled := false, result := 0 }
    | some s1 =>
      let previousStack := s1.handlerStack
      let s2 := { s1 with handlerStack := (handler, handler_arg, flags) :: previousStack }
      let (s3, r) := fn s2
      let s4 := { s3 with handlerStack := previousStack }
      { rc := 0, state := s4, fnCalled := true, result := r }

/-- The search-and-update walk of omrsig_set_async_signal_handler, lines
474-496: find the record with matching port library, handler and
argument; remove it when flags are zero (and stop), or union the new
flags into it (and stop); none means no record matched. -/
def setAsyncWalk (portLibrary handler handler_arg flags : Nat) :
    List OMRUnixAsyncHandlerRecord → Option (List OMRUnixAsyncHandlerRecord)
  | [] => none
  | cursor :: rest =>
    if cursor.portLib == portLibrary && cursor.handler == handler &&
       cursor.handler_arg == handler_arg then
      if flags == 0 then some rest
      else some ({ cursor with flags := cursor.flags ||| flags } :: rest)
    else
      (setAsyncWalk portLibrary handler handler_arg flags rest).map (fun l => cursor :: l)

/-- The asyncMonitor section of omrsig_set_async_signal_handler, lines
466-519: update or remove a matching record, or append a fresh record at
the tail of the list when none matched and flags are non-zero
(allocation modelled as succeeding). -/
def omrsig_set_async_signal_handler_list (portLibrary handler handler_arg flags : Nat)
    (l : List OMRUnixAsyncHandlerRecord) : List OMRUnixAsyncHandlerRecord :=
  match setAsyncWalk portLibrary handler handler_arg flags l with
  | some l1 => l1
  | none =>
    if flags != 0 then
      l ++ [{ portLib := portLibrary, handler := handler, handler_arg := handler_arg, flags := flags }]
    else l

/-- Function omrsig_set_async_signal_handler of omrsignal.c, lines
434-523: ambiguity gate, main-handler installation under the reduced
signals option, then the list update under the async monitor. -/
def omrsig_set_async_signal_handler (portLibrary handler handler_arg flags : Nat)
    (s : SigState) : Int × SigState :=
  if checkForAmbiguousSignalFlags flags then (OMRPORT_SIG_ERROR, s)
  else
    let installed : Option SigState :=
      if OMR_ARE_ANY_BITS_SET s.signalOptionsGlobal OMRPORT_SIG_OPTIONS_REDUCED_SIGNALS_ASYNCHRONOUS then
        if OMR_ARE_ALL_BITS_SET flags OMRPORT_SIG_FLAG_SIGXFSZ &&
           OMR_ARE_ANY_BITS_SET s.signalOptionsGlobal OMRPORT_SIG_OPTIONS_SIGXFSZ then
          match registerMainHandlers OMRPORT_SIG_FLAG_SIGXFSZ OMRPORT_SIG_FLAG_SIGALLASYNC s with
          | none => none
          | some (s1, _) => some s1
        else none
      else
        match registerMainHandlers flags OMRPORT_SIG_FLAG_SIGALLASYNC s with
        | none => none
        | some (s1, _) => some s1
    match installed with
    | none => (OMRPORT_SIG_ERROR, s)
    | some s1 =>
      let l1 := omrsig_set_async_signal_handler_list portLibrary handler handler_arg flags s1.asyncHandlerList
      (0, { s1 with asyncHandlerList := l1 })

/-- The search walk of omrsig_set_single_async_signal_handler, lines
575-603: a record of the same port library matching handler and
argument is removed (flag zero, stopping the walk) or updated with the
new flag; every other record of that port library has the signal bit of
the flag cleared from its mask; records of other port libraries are not
touched.  The walk does not stop after an update.  The Bool result is
the foundHandler flag. -/
def setSingleWalk (portLibrary handler handler_arg portlibSignalFlag : Nat) :
    List OMRUnixAsyncHandlerRecord → List OMRUnixAsyncHandlerRecord × Bool
  | [] => ([], false)
  | cursor :: rest =>
    if cursor.portLib == portLibrary then
      if cursor.handler == handler && cursor.handler_arg == handler_arg then
        if portlibSignalFlag == 0 then (rest, true)
        else
          let r := setSingleWalk portLibrary handler handler_arg portlibSignalFlag rest
          ({ cursor with flags := cursor.flags ||| portlibSignalFlag } :: r.1, true)
      else
        let clearedFlags :=
          cursor.flags &&& compl32 (portlibSignalFlag &&& compl32 OMRPORT_SIG_FLAG_CONTROL_BITS_MASK)
        let cursor1 := { cursor with flags := clearedFlags }
        let r := setSingleWalk portLibrary handler handler_arg portlibSignalFlag rest
        (cursor1 :: r.1, r.2)
    else
      let r := setSingleWalk portLibrary handler handler_arg portlibSignalFlag rest
      (cursor :: r.1, r.2)

/-- The asyncMonitor section of omrsig_set_single_async_signal_handler,
lines 568-622: run the walk, then append a fresh record at the tail when
no record matched and the flag is non-zero (allocation modelled as
succeeding). -/
def omrsig_set_single_async_signal_handler_list (portLibrary handler handler_arg portlibSignalFlag : Nat)
    (l : List OMRUnixAsyncHandlerRecord) : List OMRUnixAsyncHandlerRecord :=
  let r := setSingleWalk portLibrary handler handler_arg portlibSignalFlag l
  if !r.2 && portlibSignalFlag != 0 then
    r.1 ++ [{ portLib := portLibrary, handler := handler, handler_arg := handler_arg,
              flags := portlibSignalFlag }]
  else r.1

/-- Function omrsig_set_single_async_signal_handler of omrsignal.c,
lines 525-631: flag-shape gates (exactly one signal bit, no ambiguity),
main-handler installation under the reduced signals option, then the
exclusive list update under the async monitor. -/
def omrsig_set_single_async_signal_handler (portLibrary handler handler_arg portlibSignalFlag : Nat)
    (s : SigState) : Int × SigState :=
  if portlibSignalFlag != 0 &&
     !OMR_IS_ONLY_ONE_BIT_SET (portlibSignalFlag &&& compl32 OMRPORT_SIG_FLAG_CONTROL_BITS_MASK) then
    (OMRPORT_SIG_ERROR, s)
  else if portlibSignalFlag != 0 && checkForAmbiguousSignalFlags portlibSignalFlag then
    (OMRPORT_SIG_ERROR, s)
  else
    let installed : Option SigState :=
      if OMR_ARE_ANY_BITS_SET s.signalOptionsGlobal OMRPORT_SIG_OPTIONS_REDUCED_SIGNALS_ASYNCHRONOUS then
        if OMR_ARE_ALL_BITS_SET portlibSignalFlag OMRPORT_SIG_FLAG_SIGXFSZ &&
           OMR_ARE_ANY_BITS_SET s.signalOptionsGlobal OMRPORT_SIG_OPTIONS_SIGXFSZ then
          match registerMainHandlers OMRPORT_SIG_FLAG_SIGXFSZ OMRPORT_SIG_FLAG_SIGALLASYNC s with
          | none => none
          | some (s1, _) => some s1
        else none
      else
        match registerMainHandlers portlibSignalFlag OMRPORT_SIG_FLAG_SIGALLASYNC s with
        | none => none
        | some (s1, _) => some s1
    match installed with
    | none => (OMRPORT_SIG_ERROR, s)
    | some s1 =>
      let l1 :=
        omrsig_set_single_async_signal_handler_list portLibrary handler handler_arg
          portlibSignalFlag s1.asyncHandlerList
      (0, { s1 with asyncHandlerList := l1 })

/-- Function omrsig_register_os_handler of omrsignal.c, lines 645-671:
flag-shape gates, then direct registration of a user OS handler under
the register monitor. -/
def omrsig_register_os_handler (portlibSignalFlag newOSHandlerCode : Nat) (s : SigState) :
    Int × SigState :=
  if portlibSignalFlag == 0 ||
     !OMR_IS_ONLY_ONE_BIT_SET (portlibSignalFlag &&& compl32 OMRPORT_SIG_FLAG_CONTROL_BITS_MASK) then
    (OMRPORT_SIG_ERROR, s)
  else if checkForAmbiguousSignalFlags portlibSignalFlag then
    (OMRPORT_SIG_ERROR, s)
  else
    match registerSignalHandlerWithOS portlibSignalFlag newOSHandlerCode s with
    | none => (OMRPORT_SIG_ERROR, s)
    | some (s1, _) => (0, s1)

/-- The SIG_IGN disposition code used by the model of
omrsig_is_signal_ignored (an opaque stand-in, as the OS actions are). -/
def SIG_IGN_code : Nat := 2001

/-- Function omrsig_is_signal_ignored of omrsignal.c, lines 689-734: a
pure query of the current OS disposition; the pair returned is the
return code and the isSignalIgnored out-parameter. -/
def omrsig_is_signal_ignored (portlibSignalFlag : Nat) (s : SigState) : Int × Bool :=
  if portlibSignalFlag != 0 &&
     !OMR_IS_ONLY_ONE_BIT_SET (portlibSignalFlag &&& compl32 OMRPORT_SIG_FLAG_CONTROL_BITS_MASK) then
    (OMRPORT_SIG_ERROR, false)
  else if portlibSignalFlag != 0 && checkForAmbiguousSignalFlags portlibSignalFlag then
    (OMRPORT_SIG_ERROR, false)
  else
    match mapPortLibSignalToOSSignal portlibSignalFlag with
    | none => (OMRPORT_SIG_ERROR, false)
    | some osSignalNo => (0, s.osAction osSignalNo == SIG_IGN_code)

/-- Function runHandlers of omrsignal.c, lines 809-843, projected to the
sequence of handler records invoked: the list is walked from its head
and every record whose mask covers the delivered flag is called, in list
order (the in-flight counter bracketing and the chaining tail do not
affect which records are called or their order). -/
def runHandlersInvocations (asyncSignalFlag : Nat) :
    List OMRUnixAsyncHandlerRecord → List OMRUnixAsyncHandlerRecord
  | [] => []
  | cursor :: rest =>
    if OMR_ARE_ALL_BITS_SET cursor.flags asyncSignalFlag then
      cursor :: runHandlersInvocations asyncSignalFlag rest
    else
      runHandlersInvocations asyncSignalFlag rest

/-- Function omrsig_startup of omrsignal.c, lines 751-783: the first
attach clears the restore flags of every oldActions slot; every attach
increments the counter.  Monitor and thread creation are modelled as
succeeding. -/
def omrsig_startup (s : SigState) : SigState :=
  if s.attachedPortLibraries == 0 then
    { s with attachedPortLibraries := 1, oldActions := fun _ => none }
  else
    { s with attachedPortLibraries := s.attachedPortLibraries + 1 }

/-- The per-signal restoration body of sig_full_shutdown, lines
1771-1781: when the restore flag of a slot is raised, the saved action
is written back to the OS, the handler bitmasks drop the signal, and the
restore flag is cleared. -/
def shutdownRestoreIndex (index : Nat) (s : SigState) : SigState :=
  match s.oldActions index with
  | some a =>
    let portlibSignalFlag := mapOSSignalToPortLib index
    let s1 := { s with
      osAction := fun i => if i = index then a else s.osAction i,
      oldActions := fun i => if i = index then none else s.oldActions i }
    let s2 := unsetBitMaskSignalsWithHandlers portlibSignalFlag s1
    unsetBitMaskSignalsWithMainHandlers portlibSignalFlag s2
  | none => s

/-- The bound ARRAY_SIZE_SIGNALS on Unix signal numbers (the macro
MAX_UNIX_SIGNAL_TYPES + 1 is defined outside src/; 65 covers every
modelled signal). -/
def ARRAY_SIZE_SIGNALS : Nat := 65

/-- Function sig_full_shutdown of omrsignal.c, lines 1759-1817: the last
detach walks every signal slot restoring saved OS dispositions, then
removes this port library's async handler records (reporter-thread
teardown and monitor destruction have no further effect on the modelled
state). -/
def sig_full_shutdown (portLibrary : Nat) (s : SigState) : SigState :=
  if s.attachedPortLibraries - 1 == 0 then
    let s1 := { s with attachedPortLibraries := s.attachedPortLibraries - 1 }
    let s2 := ((List.range ARRAY_SIZE_SIGNALS).drop 1).foldl (fun t i => shutdownRestoreIndex i t) s1
    { s2 with asyncHandlerList := s2.asyncHandlerList.filter (fun r => r.portLib != portLibrary) }
  else
    { s with attachedPortLibraries := s.attachedPortLibraries - 1 }

end OMRSig

namespace OMROpt

/-!
Embedding of the optimizer orchestrator of src/unnamed/part_001
(Optimizer.cpp).  Optimization identifiers are Nat codes; the enum
boundary numOpts separating real optimizations from groups is a modelled
stand-in (the Optimizations enumeration lives outside src/), with every
real optimization code below it and every group code above it, which is
all the source comparisons use.  Collaborator behaviour that the source
treats as opaque (the pass bodies, the analysis constructors, the CFG
queries) enters through an oracle record so that theorems quantify over
every possible behaviour of those collaborators.
-/

/-- Typed failures raised through comp()->failCompilation. -/
inductive TRFailure where
  | excessiveComplexity
  | compilationInterrupted
  | insufficientlyAggressiveCompilation
deriving Repr, DecidableEq

/-- Guard kinds of the OptimizationStrategy entries (the _options field),
exactly the cases of the switch in performOptimization, lines 3056-3342. -/
inductive GuardKind where
  | Always | IfLoops | IfMoreThanOneBlock | IfOneBlock | IfLoopsMarkLastRun | IfNoLoops
  | IfProfiling | IfNotProfiling | IfNotJitProfiling | IfNews | IfOptServer | IfMonitors
  | IfEnabledAndMonitors | IfEnabledAndOptServer | IfNotClassLoadPhase
  | IfNotClassLoadPhaseAndNotProfiling | IfEnabledAndLoops | IfEnabledAndMoreThanOneBlock
  | IfEnabledAndMoreThanOneBlockMarkLastRun | IfEnabledAndNoLoops | IfNoLoopsOREnabledAndLoops
  | IfEnabledAndProfiling | IfEnabledAndNotProfiling | IfEnabledAndNotJitProfiling
  | IfLoopsAndNotProfiling | MustBeDone | IfFullInliningUnderOSRDebug
  | IfNotFullInliningUnderOSRDebug | IfOSR | IfVoluntaryOSR | IfInvoluntaryOSR | IfEnabled
  | IfEnabledMarkLastRun | IfAOTAndEnabled | IfMethodHandleInvokes | IfNotQuickStart
  | IfEAOpportunitiesMarkLastRun | IfEAOpportunities | IfEAOpportunitiesAndNotOptServer
  | IfAggressiveLiveness | IfVectorAPI | MarkLastRun
deriving Repr, DecidableEq

/-- One OptimizationStrategy entry: the optimization (or group) number
and its guard. -/
structure StratEntry where
  num : Nat
  guard : GuardKind
deriving Repr, DecidableEq

/-- The modelled enum boundary OMR::numOpts: real optimizations have
codes below it, groups above it. -/
def numOpts : Nat := 100

/-- Compilation-wide predicates and options consulted by the guard
switch and the gates of performOptimization; they do not change during
one invocation. -/
structure CompEnv where
  mayHaveLoops : Bool
  hasMoreThanOneBlock : Bool
  isProfilingCompilation : Bool
  profilingModeIsJit : Bool
  hasNews : Bool
  isOptServer : Bool
  mayContainMonitors : Bool
  isClassLoadingPhase : Bool
  dontDowngradeToCold : Bool
  fullSpeedDebug : Bool
  enableOSR : Bool
  fullInlineUnderOSRDebug : Bool
  osrModeVoluntary : Bool
  osrModeInvoluntary : Bool
  compileRelocatableCode : Bool
  enableColdCheapTacticalGRA : Bool
  disableAOTColdCheapTacticalGRA : Bool
  hasMethodHandleInvokes : Bool
  disableMethodHandleInvokeOpts : Bool
  quickstartDetected : Bool
  hasEscapeAnalysisOpportunities : Bool
  enableAggressiveLiveness : Bool
  hasVectorAPI : Bool
  disableVectorAPIExpansion : Bool
  ignoreIfNotProfilingDebug : Bool
  processHugeMethods : Bool
  mimicInterpreterFrameShape : Bool
  hotnessGeVeryHot : Bool
  isIlGenOpt : Bool

/-- Outcome of the guard switch of performOptimization, lines 3049-3345:
the three decision flags and whether the guard itself set the last-run
marker of the manager (justSetLastRun). -/
structure GuardOutcome where
  doThis : Bool
  doIfEnabled : Bool
  mustBeDone : Bool
  justSetLastRun : Bool
deriving Repr, DecidableEq

/-- The guard switch of performOptimization, lines 3056-3342, as a
function of the guard kind, the manager's requested flag and the
compilation predicates. -/
def evalGuard (g : GuardKind) (requested : Bool) (env : CompEnv) : GuardOutcome :=
  match g with
  | .Always => ⟨true, false, false, false⟩
  | .IfLoops => ⟨env.mayHaveLoops, false, false, false⟩
  | .IfMoreThanOneBlock => ⟨env.hasMoreThanOneBlock, false, false, false⟩
  | .IfOneBlock => ⟨!env.hasMoreThanOneBlock, false, false, false⟩
  | .IfLoopsMarkLastRun => ⟨env.mayHaveLoops, false, false, true⟩
  | .IfNoLoops => ⟨!env.mayHaveLoops, false, false, false⟩
  | .IfProfiling => ⟨env.isProfilingCompilation, false, false, false⟩
  | .IfNotProfiling =>
    ⟨!env.isProfilingCompilation || env.ignoreIfNotProfilingDebug, false, false, false⟩
  | .IfNotJitProfiling => ⟨!env.profilingModeIsJit, false, false, false⟩
  | .IfNews => ⟨env.hasNews, false, false, false⟩
  | .IfOptServer => ⟨env.isOptServer, false, false, false⟩
  | .IfMonitors => ⟨env.mayContainMonitors, false, false, false⟩
  | .IfEnabledAndMonitors => ⟨requested && env.mayContainMonitors, false, false, false⟩
  | .IfEnabledAndOptServer =>
    let c := requested && env.isOptServer
    ⟨c, c, false, false⟩
  | .IfNotClassLoadPhase =>
    ⟨!env.isClassLoadingPhase || env.dontDowngradeToCold, false, false, false⟩
  | .IfNotClassLoadPhaseAndNotProfiling =>
    let c := (!env.isClassLoadingPhase || env.dontDowngradeToCold) &&
             (!env.isProfilingCompilation || env.ignoreIfNotProfilingDebug)
    ⟨c, false, false, false⟩
  | .IfEnabledAndLoops =>
    let c := env.mayHaveLoops && requested
    ⟨c, c, false, false⟩
  | .IfEnabledAndMoreThanOneBlock =>
    let c := env.hasMoreThanOneBlock && requested
    ⟨c, c, false, false⟩
  | .IfEnabledAndMoreThanOneBlockMarkLastRun =>
    let c := env.hasMoreThanOneBlock && requested
    ⟨c, c, false, true⟩
  | .IfEnabledAndNoLoops =>
    let c := !env.mayHaveLoops && requested
    ⟨c, c, false, false⟩
  | .IfNoLoopsOREnabledAndLoops =>
    let c := !env.mayHaveLoops || requested
    ⟨c, c && env.mayHaveLoops, false, false⟩
  | .IfEnabledAndProfiling =>
    let c := env.isProfilingCompilation && requested
    ⟨c, c, false, false⟩
  | .IfEnabledAndNotProfiling =>
    let c := !env.isProfilingCompilation && requested
    ⟨c, c, false, false⟩
  | .IfEnabledAndNotJitProfiling =>
    let c := !env.profilingModeIsJit && requested
    ⟨c, c, false, false⟩
  | .IfLoopsAndNotProfiling =>
    ⟨env.mayHaveLoops && !env.isProfilingCompilation, false, false, false⟩
  | .MustBeDone => ⟨true, false, true, false⟩
  | .IfFullInliningUnderOSRDebug =>
    ⟨env.fullSpeedDebug && env.enableOSR && env.fullInlineUnderOSRDebug, false, false, false⟩
  | .IfNotFullInliningUnderOSRDebug =>
    ⟨env.fullSpeedDebug && (!env.enableOSR || !env.fullInlineUnderOSRDebug), false, false, false⟩
  | .IfOSR => ⟨env.enableOSR, false, false, false⟩
  | .IfVoluntaryOSR => ⟨env.enableOSR && env.osrModeVoluntary, false, false, false⟩
  | .IfInvoluntaryOSR => ⟨env.enableOSR && env.osrModeInvoluntary, false, false, false⟩
  | .IfEnabled => ⟨requested, requested, false, false⟩
  | .IfEnabledMarkLastRun => ⟨requested, requested, false, true⟩
  | .IfAOTAndEnabled =>
    let c := (env.compileRelocatableCode || env.enableColdCheapTacticalGRA) && requested &&
             !env.disableAOTColdCheapTacticalGRA
    ⟨c, c, false, false⟩
  | .IfMethodHandleInvokes =>
    ⟨env.hasMethodHandleInvokes && !env.disableMethodHandleInvokeOpts, false, false, false⟩
  | .IfNotQuickStart => ⟨!env.quickstartDetected, false, false, false⟩
  | .IfEAOpportunitiesMarkLastRun =>
    ⟨env.hasEscapeAnalysisOpportunities, false, false, true⟩
  | .IfEAOpportunities => ⟨env.hasEscapeAnalysisOpportunities, false, false, false⟩
  | .IfEAOpportunitiesAndNotOptServer =>
    ⟨env.hasEscapeAnalysisOpportunities && !env.isOptServer, false, false, false⟩
  | .IfAggressiveLiveness => ⟨env.enableAggressiveLiveness, false, false, false⟩
  | .IfVectorAPI => ⟨env.hasVectorAPI && !env.disableVectorAPIExpansion, false, false, false⟩
  | .MarkLastRun => ⟨true, false, false, true⟩

/-- Per-compilation mutable state of one TR::OptimizationManager
together with the capability flags of its optimization. -/
structure ManagerModel where
  requested : Bool
  requestedBlocksNonempty : Bool
  lastRun : Bool
  performOnlyOnEnabledBlocks : Bool
  requiresStructure : Bool
  requiresUseDefInfo : Bool
  requiresGlobalsUseDefInfo : Bool
  requiresValueNumbering : Bool
  requiresGlobalsValueNumbering : Bool
  maintainsUseDefInfo : Bool
  doesNotRequireAliasSets : Bool
  doNotSetFrequencies : Bool
  stronglyPrefersGlobalsValueNumbering : Bool
  doesNotRequireLoadsAsDefsInUseDefs : Bool
  cannotOmitTrivialDefs : Bool
  prefersGlobalsUseDefInfo : Bool
  prefersGlobalsValueNumbering : Bool
deriving Repr, DecidableEq

/-- The attributes of a cached TR_UseDefInfo that the orchestrator
consults. -/
structure UseDefInfoModel where
  hasGlobalsUseDefs : Bool
  hasLoadsAsDefs : Bool
deriving Repr, DecidableEq

/-- The attribute of a cached TR_ValueNumberInfo that the orchestrator
consults. -/
structure ValueNumberInfoModel where
  hasGlobalsValueNumbers : Bool
deriving Repr, DecidableEq

/-- The compilation counters and CFG facts read and written by
performOptimization. -/
structure CompModel where
  optIndex : Nat
  nodeCount : Nat
  symRefCount : Nat
  visitCount : Nat
  isOutermostMethod : Bool
  structurePresent : Bool
  maxFrequencyNonNegative : Bool
  mightHaveUnreachableBlocks : Bool
  optimizer : Nat
deriving Repr, DecidableEq

/-- The orchestrator-owned analysis cache and bookkeeping fields of
OMR::Optimizer. -/
structure OptState where
  comp : CompModel
  aliasSetsAreValid : Bool
  useDefInfo : Option UseDefInfoModel
  valueNumberInfo : Option ValueNumberInfoModel
  symReferencesTable : Bool
  firstTimeStructureIsBuilt : Bool
  disableLoopOptsThatCanCreateLoops : Bool
deriving Repr, DecidableEq

/-- Behaviour of the opaque collaborators during one invocation of
performOptimization: the option and regex gates, the shouldPerform
predicate, what the analysis constructors produce, the counters left by
the pass body, the cancellation poll, and the effect of a recursive
group run.  Quantifying theorems over this record covers every possible
behaviour of the collaborators. -/
structure PassOracle where
  isEnabled : Bool
  disabledOptsMatchIndex : Bool
  disabledOptsMatchName : Bool
  shouldPerform : Bool
  structureBuilds : Bool
  structureCost : Nat
  countedLoops : Nat
  cantBuildGlobalsUseDefInfo : Bool
  cantBuildLocalsUseDefInfo : Bool
  useDefInfoIsValid : Bool
  builtUseDefHasGlobals : Bool
  cantBuildGlobalsValueNumberInfo : Bool
  cantBuildLocalsValueNumberInfo : Bool
  valueNumberInfoIsValid : Bool
  builtValueNumberHasGlobals : Bool
  cfgBlockCount : Nat
  cfgLoopCount : Nat
  blocksContainStartOrEnd : Bool
  canRunBlockByBlock : Bool
  passNodeCount : Nat
  passSymRefCount : Nat
  passVisitCount : Nat
  passCost : Nat
  interrupted : Bool
  removeDeadNodes : Bool
  groupEffect : OptState → OptState
  groupFailure : Option TRFailure
  groupCost : Nat
  insufficientlyAggressive : Bool

/-- The complexity thresholds HIGH_BASIC_BLOCK_COUNT, HIGH_LOOP_COUNT
and VERY_HOT_HIGH_LOOP_COUNT (macros defined outside src/, kept
abstract). -/
structure ComplexityThresholds where
  highBasicBlockCount : Nat
  highLoopCount : Nat
  veryHotHighLoopCount : Nat
deriving Repr, DecidableEq

/-- The visit-count high-water mark HIGH_VISIT_COUNT (macro defined
outside src/; the exact value does not matter to the theorems). -/
def HIGH_VISIT_COUNT : Nat := 100000

/-- Function checkNumberOfLoopsAndBasicBlocks of Optimizer.cpp, lines
4124-4158: count blocks and loops (supplied here as inputs, since the
CFG is opaque), raise the loop limit at veryHot and above, double both
limits on an opt server, and report whether either limit is reached. -/
def checkNumberOfLoopsAndBasicBlocks (th : ComplexityThresholds)
    (numBasicBlocksInMethod numLoopsInMethod : Nat)
    (hotnessGeVeryHot isOptServer : Bool) : Bool :=
  let highBasicBlockCount := th.highBasicBlockCount
  let highLoopCount := if hotnessGeVeryHot then th.veryHotHighLoopCount else th.highLoopCount
  let highBasicBlockCount := if isOptServer then highBasicBlockCount * 2 else highBasicBlockCount
  let highLoopCount := if isOptServer then highLoopCount * 2 else highLoopCount
  numBasicBlocksInMethod ≥ highBasicBlockCount || numLoopsInMethod ≥ highLoopCount

/-- The complexity gate of performOptimization, lines 3788-3808: when
the pass requires structure and structure exists, a method over the
thresholds fails the compilation with ExcessiveComplexity unless the
process-huge-methods override is set (the MimicInterpreterFrameShape
split only changes the failure message). -/
def complexityGate (th : ComplexityThresholds) (env : CompEnv)
    (requiresStructure structurePresent : Bool)
    (numBasicBlocks numLoops : Nat) : Option TRFailure :=
  if requiresStructure && structurePresent then
    if checkNumberOfLoopsAndBasicBlocks th numBasicBlocks numLoops env.hotnessGeVeryHot env.isOptServer then
      if env.processHugeMethods then none
      else some .excessiveComplexity
    else none
  else none

/-- The cache reconciliation after a pass, lines 3878-3894: a node-count
increase invalidates the value-number info and, unless the pass
maintains use-defs, the use-def info; a symref-count change invalidates
the symref table and the alias sets. -/
def reconcileCaches (origNodeCount origSymRefCount : Nat)
    (maintainsUseDefInfo : Bool) (st : OptState) : OptState :=
  let st1 :=
    if st.comp.nodeCount > origNodeCount then
      let stv := { st with valueNumberInfo := none }
      if !maintainsUseDefInfo then { stv with useDefInfo := none } else stv
    else st
  if st1.comp.symRefCount ≠ origSymRefCount then
    { st1 with symReferencesTable := false, aliasSetsAreValid := false }
  else st1

/-- The alias-set materialization step, lines 3491-3500. -/
def stageAliases (mgr : ManagerModel) (st : OptState) (cost : Nat) : OptState × Nat :=
  if !st.aliasSetsAreValid && !mgr.doesNotRequireAliasSets then
    ({ st with aliasSetsAreValid := true }, cost + 1)
  else (st, cost)

/-- The structural-analysis step, lines 3506-3545: build structure on
demand; on the first successful build, count loops and, without the
process-huge-methods override, set the flag disabling loop-creating
passes when the count is within 25 of the loop limit (the comparison
numLoops >= HIGH_LOOP_COUNT - 25 is rendered without truncating
subtraction). -/
def stageStructure (mgr : ManagerModel) (env : CompEnv) (th : ComplexityThresholds)
    (oracle : PassOracle) (st : OptState) (cost : Nat) : OptState × Nat :=
  if mgr.requiresStructure && !st.comp.structurePresent then
    let st1 := { st with comp := { st.comp with structurePresent := oracle.structureBuilds } }
    let cost1 := cost + oracle.structureCost
    if st1.firstTimeStructureIsBuilt && oracle.structureBuilds then
      let disable := !env.processHugeMethods && oracle.countedLoops + 25 ≥ th.highLoopCount
      ({ st1 with
          firstTimeStructureIsBuilt := false,
          disableLoopOptsThatCanCreateLoops := st1.disableLoopOptsThatCanCreateLoops || disable }, cost1)
    else (st1, cost1)
  else (st, cost)

/-- The use-def pre-invalidation steps, lines 3548-3569: drop a cached
use-def info that a strongly-globals-preferring pass cannot use, or
whose loads-as-defs setting disagrees with the pass. -/
def stagePreUseDef (mgr : ManagerModel) (oracle : PassOracle) (st : OptState) : OptState :=
  let st1 :=
    match st.useDefInfo with
    | some u =>
      if mgr.stronglyPrefersGlobalsValueNumbering && !u.hasGlobalsUseDefs &&
         !oracle.cantBuildGlobalsUseDefInfo then
        { st with useDefInfo := none }
      else st
    | none => st
  let st2 :=
    match st1.useDefInfo with
    | some u =>
      if mgr.doesNotRequireLoadsAsDefsInUseDefs && u.hasLoadsAsDefs then
        { st1 with useDefInfo := none }
      else st1
    | none => st1
  match st2.useDefInfo with
  | some u =>
    if !mgr.doesNotRequireLoadsAsDefsInUseDefs && !u.hasLoadsAsDefs then
      { st2 with useDefInfo := none }
    else st2
  | none => st2

/-- The use-def materialization step, lines 3571-3667: build global
use-defs when required and possible, else local use-defs when required
and absent; an invalid build is discarded. -/
def stageBuildUseDef (mgr : ManagerModel) (oracle : PassOracle) (st : OptState) (cost : Nat) :
    OptState × Nat :=
  if mgr.requiresGlobalsUseDefInfo || mgr.requiresGlobalsValueNumbering then
    if !oracle.cantBuildGlobalsUseDefInfo &&
       (st.useDefInfo.isNone || !((st.useDefInfo.map (fun u => u.hasGlobalsUseDefs)).getD false)) then
      if oracle.useDefInfoIsValid then
        let built : UseDefInfoModel :=
          ⟨true, !mgr.doesNotRequireLoadsAsDefsInUseDefs⟩
        ({ st with useDefInfo := some built }, cost + 10)
      else (st, cost + 10)
    else (st, cost)
  else if mgr.requiresUseDefInfo || mgr.requiresValueNumbering then
    if !oracle.cantBuildLocalsUseDefInfo && st.useDefInfo.isNone then
      if oracle.useDefInfoIsValid then
        let built : UseDefInfoModel :=
          ⟨oracle.builtUseDefHasGlobals, !mgr.doesNotRequireLoadsAsDefsInUseDefs⟩
        ({ st with useDefInfo := some built }, cost + 10)
      else (st, cost + 10)
    else (st, cost)
  else (st, cost)

/-- The value-number materialization step, lines 3669-3737. -/
def stageBuildValueNumbers (mgr : ManagerModel) (oracle : PassOracle) (st : OptState) (cost : Nat) :
    OptState × Nat :=
  if mgr.requiresGlobalsValueNumbering then
    if !oracle.cantBuildGlobalsValueNumberInfo &&
       (st.valueNumberInfo.isNone ||
        !((st.valueNumberInfo.map (fun v => v.hasGlobalsValueNumbers)).getD false)) then
      if oracle.valueNumberInfoIsValid then
        ({ st with valueNumberInfo := some { hasGlobalsValueNumbers := true } }, cost + 10)
      else (st, cost + 10)
    else (st, cost)
  else if mgr.requiresValueNumbering then
    if !oracle.cantBuildLocalsValueNumberInfo && st.valueNumberInfo.isNone then
      if oracle.valueNumberInfoIsValid then
        let built : ValueNumberInfoModel := ⟨oracle.builtValueNumberHasGlobals⟩
        ({ st with valueNumberInfo := some built }, cost + 10)
      else (st, cost + 10)
    else (st, cost)
  else (st, cost)

/-- The frequency computation step, lines 3770-3776. -/
def stageFrequencies (mgr : ManagerModel) (st : OptState) : OptState :=
  if st.comp.isOutermostMethod && !st.comp.maxFrequencyNonNegative && !mgr.doNotSetFrequencies then
    { st with comp := { st.comp with maxFrequencyNonNegative := true } }
  else st

/-- The counters left on the compilation by the opaque pass body (the
prePerform, perform, postPerform or the per-block variant, lines
3830-3858). -/
def applyPassEffect (oracle : PassOracle) (st : OptState) : OptState :=
  { st with comp := { st.comp with
      nodeCount := oracle.passNodeCount,
      symRefCount := oracle.passSymRefCount,
      visitCount := oracle.passVisitCount } }

/-- The visit-count reset after a pass, lines 3896-3900. -/
def stageVisitReset (st : OptState) : OptState :=
  if st.comp.visitCount > HIGH_VISIT_COUNT then
    { st with comp := { st.comp with visitCount := 1 } }
  else st

/-- The unreachable-block cleanup after a pass, lines 3902-3903. -/
def stageUnreachable (st : OptState) : OptState :=
  if st.comp.mightHaveUnreachableBlocks then
    { st with comp := { st.comp with mightHaveUnreachableBlocks := false } }
  else st

/-- Outcome of one performOptimization invocation: the typed failure if
one was raised (the state then reflects the moment of the throw), the
updated orchestrator state, the updated manager of the entry, and the
returned cost. -/
structure PerformOutcome where
  failure : Option TRFailure
  state : OptState
  manager : ManagerModel
  cost : Nat

/-- The body of performOptimization past the shouldPerform gate, lines
3491-3989: materialize the analyses the manager declares required, run
the complexity gate, invoke the pass (whole-method when the guard was
not per-block-conditional or the requested blocks contain the CFG start
or end block, otherwise block by block when allowed), poll for
cancellation, and reconcile the caches. -/
def performRealOpt (g : GuardOutcome) (mgr : ManagerModel) (env : CompEnv)
    (th : ComplexityThresholds) (oracle : PassOracle) (st : OptState) : PerformOutcome :=
  let r1 := stageAliases mgr st 0
  let mgr1 :=
    if mgr.requiresUseDefInfo || mgr.requiresValueNumbering then
      { mgr with requiresStructure := true }
    else mgr
  let r2 := stageStructure mgr1 env th oracle r1.1 r1.2
  let st3 := stagePreUseDef mgr1 oracle r2.1
  let r4 := stageBuildUseDef mgr1 oracle st3 r2.2
  let r5 := stageBuildValueNumbers mgr1 oracle r4.1 r4.2
  let origSymRefCount := r5.1.comp.symRefCount
  let origNodeCount := r5.1.comp.nodeCount
  let st6 := stageFrequencies mgr1 r5.1
  let mgr2 := if g.doIfEnabled then { mgr1 with performOnlyOnEnabledBlocks := true } else mgr1
  match complexityGate th env mgr2.requiresStructure st6.comp.structurePresent
      oracle.cfgBlockCount oracle.cfgLoopCount with
  | some f => { failure := some f, state := st6, manager := mgr2, cost := r5.2 }
  | none =>
    let invoked :=
      if !g.doIfEnabled || oracle.blocksContainStartOrEnd then
        (applyPassEffect oracle st6, { mgr2 with requested := false }, r5.2 + oracle.passCost)
      else if oracle.canRunBlockByBlock then
        (applyPassEffect oracle st6,
         { mgr2 with requested := false, performOnlyOnEnabledBlocks := false },
         r5.2 + oracle.passCost)
      else (st6, mgr2, r5.2)
    if oracle.interrupted then
      { failure := some .compilationInterrupted, state := invoked.1, manager := invoked.2.1,
        cost := invoked.2.2 }
    else
      let st7 := reconcileCaches origNodeCount origSymRefCount invoked.2.1.maintainsUseDefInfo invoked.1
      let st8 := stageVisitReset st7
      let st9 := stageUnreachable st8
      { failure := none, state := st9, manager := invoked.2.1, cost := invoked.2.2 }

/-- Function performOptimization of Optimizer.cpp, lines 3022-3989, for
one strategy entry.  The guard switch runs first (possibly marking
last-run); a group entry whose guard passed runs its sub-strategy (the
recursive runs are the oracle's group effect; the dedicated group-loop
embedding below covers the re-entry protocol); otherwise the global
optimization index is incremented for an outermost compilation whether
or not the pass runs, the index-range, enabled, regex and shouldPerform
gates may end the invocation, the required analyses are materialized,
the complexity gate may fail the compilation, the pass body runs, the
cancellation poll may fail the compilation, and the caches are
reconciled.  Tracing, timing and dump blocks have no effect on the
modelled state and are omitted; the loopVersionerGroup special case at
lines 3371-3372 touches only the lastLoopVersionerGroup requested flag,
which is not a field of this entry's manager. -/
def performOptimizationModel (entry : StratEntry) (mgr : ManagerModel) (env : CompEnv)
    (th : ComplexityThresholds) (oracle : PassOracle)
    (firstOptIndex lastOptIndex : Nat) (st : OptState) : PerformOutcome :=
  let optIndexLocal := st.comp.optIndex + 1
  let g := evalGuard entry.guard mgr.requested env
  let mgr := if g.justSetLastRun then { mgr with lastRun := true } else mgr
  let doThis := if g.doIfEnabled && !mgr.requestedBlocksNonempty then false else g.doThis
  if entry.num > numOpts && doThis then
    let mgr := { mgr with requested := false }
    let st1 := oracle.groupEffect st
    { failure := oracle.groupFailure, state := st1, manager := mgr, cost := oracle.groupCost }
  else
    let st :=
      if st.comp.isOutermostMethod then
        { st with comp := { st.comp with optIndex := st.comp.optIndex + 1 } }
      else st
    if !doThis then
      { failure := none, state := st, manager := mgr, cost := 0 }
    else if !(g.mustBeDone || (firstOptIndex ≤ optIndexLocal && optIndexLocal ≤ lastOptIndex)) then
      { failure := none, state := st, manager := mgr, cost := 0 }
    else if !oracle.isEnabled then
      { failure := none, state := st, manager := mgr, cost := 0 }
    else if oracle.disabledOptsMatchIndex then
      { failure := none, state := st, manager := mgr, cost := 0 }
    else if oracle.disabledOptsMatchName then
      { failure := none, state := st, manager := mgr, cost := 0 }
    else if !oracle.shouldPerform then
      { failure := none, state := st, manager := mgr, cost := 0 }
    else
      performRealOpt g mgr env th oracle st

/-- The strategy loop of optimize, lines 1187-1196: run each entry in
order, propagating a typed failure immediately; between entries, dead
node removal outside IlGen invalidates the value-number info.  Managers
are a map from optimization number to manager state, so that two entries
naming the same optimization share state; the oracle stream supplies the
collaborator behaviour of the k-th invocation. -/
def optimizeLoop (env : CompEnv) (th : ComplexityThresholds) (oracles : Nat → PassOracle)
    (firstOptIndex lastOptIndex : Nat) :
    List StratEntry → Nat → (Nat → ManagerModel) → OptState →
      Option TRFailure × (Nat → ManagerModel) × OptState
  | [], _, mgrs, st => (none, mgrs, st)
  | e :: rest, k, mgrs, st =>
    let r := performOptimizationModel e (mgrs e.num) env th (oracles k) firstOptIndex lastOptIndex st
    let mgrs1 := fun n => if n = e.num then r.manager else mgrs n
    match r.failure with
    | some f => (some f, mgrs1, r.state)
    | none =>
      let st1 :=
        if !env.isIlGenOpt && (oracles k).removeDeadNodes then
          { r.state with valueNumberInfo := none }
        else r.state
      optimizeLoop env th oracles firstOptIndex lastOptIndex rest (k + 1) mgrs1 st1

/-- Function optimize of Optimizer.cpp, lines 1070-1227: the current
optimizer of the compilation is saved (line 1097), replaced by this
optimizer (line 1099), the strategy is run to completion, the
deterministic-compilation hotness re-evaluation may raise
InsufficientlyAggressiveCompilation (lines 1198-1208, collapsed to the
Bool demandsRecompilation since the hotness comparison is opaque), and
the saved optimizer is put back at line 1225 before the normal return;
a failure propagates out before that restore executes. -/
def optimizeModel (self : Nat) (strategy : List StratEntry) (env : CompEnv)
    (th : ComplexityThresholds) (oracles : Nat → PassOracle)
    (firstOptIndex lastOptIndex : Nat) (demandsRecompilation : Bool)
    (mgrs : Nat → ManagerModel) (st : OptState) :
    Option TRFailure × (Nat → ManagerModel) × OptState :=
  let stackedOptimizer := st.comp.optimizer
  let st0 := { st with comp := { st.comp with optimizer := self } }
  let r := optimizeLoop env th oracles firstOptIndex lastOptIndex strategy 0 mgrs st0
  match r.1 with
  | some f => (some f, r.2.1, r.2.2)
  | none =>
    if demandsRecompilation then
      (some .insufficientlyAggressiveCompilation, r.2.1, r.2.2)
    else
      let st1 := r.2.2
      (none, r.2.1, { st1 with comp := { st1.comp with optimizer := stackedOptimizer } })

/-- The macro MAX_LOCAL_OPTS_ITERS, line 143 of Optimizer.cpp. -/
def MAX_LOCAL_OPTS_ITERS : Nat := 5

/-- The pending-blocks scan of the eachLocalAnalysisPass re-entry check,
lines 3392-3404 as written in this repository: the loop walks the
sub-strategy entries, but the condition it tests is the enclosing group
manager's own requested-block list (the variable manager in scope is the
group's manager; the per-entry optNum declared at line 3397 is never
used), so the walk reports pending blocks exactly when the body is
non-empty and the group manager's requested-block list is non-empty. -/
def eachLocalPendingScanCode : List StratEntry → Bool → Bool
  | [], _ => false
  | _e :: rest, groupBlocksNonempty =>
    if groupBlocksNonempty then true else eachLocalPendingScanCode rest groupBlocksNonempty

/-- The iteration engine of the group while-loop of performOptimization,
lines 3378-3417, counting body executions.  The argument pend gives the
group manager's requested-block state after the k-th body execution (the
bodies are runs of the recursive performOptimization calls and are
otherwise opaque here).  The fuel equals the iteration cap, which the
loop cannot exceed. -/
def performGroupLoopGo (body : List StratEntry) (pend : Nat → Bool) :
    Nat → Nat → Nat
  | 0, numIters => numIters
  | fuel + 1, numIters =>
    let numIters1 := numIters + 1
    if !eachLocalPendingScanCode body (pend numIters1) || numIters1 ≥ MAX_LOCAL_OPTS_ITERS then
      numIters1
    else
      performGroupLoopGo body pend fuel numIters1

/-- Number of body iterations the group while-loop of lines 3378-3417
executes: one for an ordinary group; for eachLocalAnalysisPassGroup the
body re-runs while the pending scan reports blocks, within the
MAX_LOCAL_OPTS_ITERS cap. -/
def performGroupLoopIters (isEachLocalAnalysisPassGroup : Bool) (body : List StratEntry)
    (pend : Nat → Bool) : Nat :=
  if isEachLocalAnalysisPassGroup then
    performGroupLoopGo body pend MAX_LOCAL_OPTS_ITERS 0
  else 1

/-- Modelled from the spec: the re-entry check the specification
describes (and the dead per-entry optNum of line 3397 indicates),
scanning each sub-entry for pending requested blocks of that sub-pass's
own manager; pendSub gives each sub-pass's requested-block state. -/
def eachLocalPendingScanSpec (pendSub : StratEntry → Bool) : List StratEntry → Bool
  | [] => false
  | e :: rest => if pendSub e then true else eachLocalPendingScanSpec pendSub rest

/-- Modelled from the spec: the iteration engine under the
specification's re-entry check; pendSub gives, after the k-th body
execution, each sub-pass's requested-block state. -/
def performGroupLoopSpecGo (body : List StratEntry) (pendSub : Nat → StratEntry → Bool) :
    Nat → Nat → Nat
  | 0, numIters => numIters
  | fuel + 1, numIters =>
    let numIters1 := numIters + 1
    if !eachLocalPendingScanSpec (pendSub numIters1) body || numIters1 ≥ MAX_LOCAL_OPTS_ITERS then
      numIters1
    else
      performGroupLoopSpecGo body pendSub fuel numIters1

/-- Modelled from the spec: iteration count of the
eachLocalAnalysisPassGroup loop under the specification's per-sub-pass
re-entry check. -/
def performGroupLoopItersSpec (body : List StratEntry) (pendSub : Nat → StratEntry → Bool) : Nat :=
  performGroupLoopSpecGo body pendSub MAX_LOCAL_OPTS_ITERS 0

/-!
Codes for the OMR::Optimizations enumerators appearing in the strategy
tables of this translation unit.  The enumeration itself is generated
outside src/; the codes below are stand-ins preserving the one property
the source relies on: real optimizations sit below numOpts and groups
above it.
-/

def localCSE : Nat := 0
def localValuePropagation : Nat := 1
def globalValuePropagation : Nat := 2
def inductionVariableAnalysis : Nat := 3
def loopCanonicalization : Nat := 4
def treeSimplification : Nat := 5
def deadTreesElimination : Nat := 6
def basicBlockOrdering : Nat := 7
def treesCleansing : Nat := 8
def reorderArrayIndexExpr : Nat := 9
def preEscapeAnalysis : Nat := 10
def escapeAnalysis : Nat := 11
def postEscapeAnalysis : Nat := 12
def CFGSimplification : Nat := 13
def catchBlockRemoval : Nat := 14
def osrExceptionEdgeRemoval : Nat := 15
def redundantMonitorElimination : Nat := 16
def virtualGuardTailSplitter : Nat := 17
def explicitNewInitialization : Nat := 18
def localDeadStoreElimination : Nat := 19
def globalDeadStoreElimination : Nat := 20
def partialRedundancyElimination : Nat := 21
def compactNullChecks : Nat := 22
def localReordering : Nat := 23
def globalCopyPropagation : Nat := 24
def loopVersioner : Nat := 25
def redundantGotoElimination : Nat := 26
def loopReduction : Nat := 27
def idiomRecognition : Nat := 28
def SPMDKernelParallelization : Nat := 29
def loopStrider : Nat := 30
def loopInversion : Nat := 31
def targetedInlining : Nat := 32
def inlining : Nat := 33
def switchAnalyzer : Nat := 34
def profiledNodeVersioning : Nat := 35
def isolatedStoreElimination : Nat := 36
def loopAliasRefiner : Nat := 37
def loopSpecializer : Nat := 38
def stripMining : Nat := 39
def coldBlockOutlining : Nat := 40
def basicBlockHoisting : Nat := 41
def virtualGuardHeadMerger : Nat := 42
def basicBlockExtension : Nat := 43
def basicBlockPeepHole : Nat := 44
def arraycopyTransformation : Nat := 45
def rematerialization : Nat := 46
def andSimplification : Nat := 47
def liveRangeSplitter : Nat := 48
def tacticalGlobalRegisterAllocator : Nat := 49
def localLiveRangeReduction : Nat := 50
def compactLocals : Nat := 51
def globalLiveVariablesForGC : Nat := 52
def blockSplitter : Nat := 53
def loopReplicator : Nat := 54
def expressionsSimplification : Nat := 55
def generalLoopUnroller : Nat := 56
def redundantAsyncCheckRemoval : Nat := 57
def recompilationModifier : Nat := 58
def generalStoreSinking : Nat := 59
def trivialBlockExtension : Nat := 60
def arraysetStoreElimination : Nat := 61
def checkcastAndProfiledGuardCoalescer : Nat := 62
def regDepCopyRemoval : Nat := 63
def fieldPrivatization : Nat := 64
def osrLiveRangeAnalysis : Nat := 65
def osrDefAnalysis : Nat := 66
def methodHandleTransformer : Nat := 67
def varHandleTransformer : Nat := 68
def handleRecompilationOps : Nat := 69
def unsafeFastPath : Nat := 70
def recognizedCallTransformer : Nat := 71
def coldBlockMarker : Nat := 72
def allocationSinking : Nat := 73
def invariantArgumentPreexistence : Nat := 74
def localValuePropagationGroup : Nat := 101
def arrayPrivatizationGroup : Nat := 102
def reorderArrayExprGroup : Nat := 103
def cheapObjectAllocationGroup : Nat := 104
def expensiveObjectAllocationGroup : Nat := 105
def eachEscapeAnalysisPassGroup : Nat := 106
def veryCheapGlobalValuePropagationGroup : Nat := 107
def cheapGlobalValuePropagationGroup : Nat := 108
def expensiveGlobalValuePropagationGroup : Nat := 109
def eachExpensiveGlobalValuePropagationGroup : Nat := 110
def veryExpensiveGlobalValuePropagationGroup : Nat := 111
def partialRedundancyEliminationGroup : Nat := 112
def methodHandleInvokeInliningGroup : Nat := 113
def earlyGlobalGroup : Nat := 114
def earlyLocalGroup : Nat := 115
def isolatedStoreGroup : Nat := 116
def globalDeadStoreGroup : Nat := 117
def loopSpecializerGroup : Nat := 119
def loopVersionerGroup : Nat := 120
def lastLoopVersionerGroup : Nat := 121
def loopCanonicalizationGroup : Nat := 122
def stripMiningGroup : Nat := 123
def blockManipulationGroup : Nat := 124
def eachLocalAnalysisPassGroup : Nat := 125
def lateLocalGroup : Nat := 126
def tacticalGlobalRegisterAllocatorGroup : Nat := 127
def finalGlobalGroup : Nat := 128

/-- Whether the guard kind sets the manager's last-run flag during its
evaluation (the cases of the switch that call setLastRun(true), lines
3077-3082, 3165-3174, 3259-3268, 3299-3302 and 3334-3339). -/
def setsLastRun (g : GuardKind) : Bool :=
  match g with
  | .IfLoopsMarkLastRun => true
  | .IfEnabledAndMoreThanOneBlockMarkLastRun => true
  | .IfEnabledMarkLastRun => true
  | .IfEAOpportunitiesMarkLastRun => true
  | .MarkLastRun => true
  | _ => false

/-- Strategy syntax for the last-run development: an entry is a real
optimization with its guard, an empty sequence, a sequencing node, or a
group carrying its inlined sub-strategy; sequences are built into the
tree so that every function on it is plainly structurally recursive.
The rep flag marks the groups whose body can be re-entered:
eachLocalAnalysisPassGroup (the while-loop of lines 3378-3417) and the
groups whose table ends with an entry naming the group itself (their
recursive tail call re-runs the same body, so any finite unfolding of
the recursion is a finite repetition of the body). -/
inductive SE where
  | op (num : Nat) (guard : GuardKind)
  | nilE
  | consE (e : SE) (rest : SE)
  | grp (num : Nat) (rep : Bool) (body : SE)
deriving Repr

/-- Sequence a list of entries into the strategy syntax. -/
def seqOf (l : List SE) : SE := l.foldr .consE .nilE

/-- The optimizations an entry can process through a guard that sets
their last-run flag. -/
def setterOpts : SE → List Nat
  | .op x g => if setsLastRun g then [x] else []
  | .nilE => []
  | .consE e rest => setterOpts e ++ setterOpts rest
  | .grp _ _ body => setterOpts body

/-- The optimizations an entry can invoke through a guard that does not
set their last-run flag. -/
def nonSetterOpts : SE → List Nat
  | .op x g => if setsLastRun g then [] else [x]
  | .nilE => []
  | .consE e rest => nonSetterOpts e ++ nonSetterOpts rest
  | .grp _ _ body => nonSetterOpts body

/-- Disjointness of two code lists. -/
def disjointNat (l1 l2 : List Nat) : Bool := l1.all (fun x => decide (x ∉ l2))

/-- The static last-run discipline of a strategy: after any entry that
can set the last-run flag of an optimization, no later entry (nor a
re-entered occurrence inside a re-enterable group) invokes that
optimization through a non-setting guard. -/
def seOk : SE → Bool
  | .op _ _ => true
  | .nilE => true
  | .consE e rest =>
    seOk e && seOk rest && disjointNat (setterOpts e) (nonSetterOpts rest)
  | .grp _ rep body =>
    seOk body && (!rep || disjointNat (setterOpts body) (nonSetterOpts body))

/-- Result of a strategy run in the last-run development: the final
last-run flags, the unconsumed part of the oracle, and whether every
pass invocation of the run respected the last-run discipline asserted at
lines 3817 and 3853 (the invocation either had justSetLastRun, or the
flag of its optimization was still clear). -/
structure RunRes where
  lastRun : Nat → Bool
  rem : List Nat
  safe : Bool

/-- Repetition of a body runner: runs the body n times threading state. -/
def runRepN (runBody : (Nat → Bool) → List Nat → RunRes) :
    Nat → (Nat → Bool) → List Nat → RunRes
  | 0, lr, o => ⟨lr, o, true⟩
  | n + 1, lr, o =>
    let a := runBody lr o
    let b := runRepN runBody n a.lastRun a.rem
    ⟨b.lastRun, b.rem, a.safe && b.safe⟩

/-- Executions of a strategy under performOptimization, abstracted to
the events that matter to the last-run discipline.  Every entry that is
processed records one event, treated as a pass invocation (a superset of
the real behaviour, where the gates may also skip an invocation, so
safety for every oracle covers every real execution); an entry whose
guard sets last-run does so whenever the entry is processed, exactly as
the guard switch does.  A group runs its body a number of times chosen
by the oracle: zero (guard failed) or one for an ordinary group, any
number for a re-enterable one.  The fuel bounds the nesting depth
explored; an execution cut short by fuel performs no further events, and
every real execution is a run with fuel at least the strategy-tree
height. -/
def runF : Nat → SE → (Nat → Bool) → List Nat → RunRes
  | 0, _, lr, o => ⟨lr, o, true⟩
  | _ + 1, .op x g, lr, o =>
    if setsLastRun g then
      ⟨fun y => if y = x then true else lr y, o, true⟩
    else
      ⟨lr, o, !(lr x)⟩
  | _ + 1, .nilE, lr, o => ⟨lr, o, true⟩
  | fuel + 1, .consE e rest, lr, o =>
    let a := runF fuel e lr o
    let b := runF fuel rest a.lastRun a.rem
    ⟨b.lastRun, b.rem, a.safe && b.safe⟩
  | fuel + 1, .grp _ rep body, lr, o =>
    match o with
    | [] => ⟨lr, [], true⟩
    | n :: o1 => runRepN (runF fuel body) (if rep then n else min n 1) lr o1

/-!
The strategy tables of Optimizer.cpp reachable from the compilation
strategies of this repository, translated into the last-run strategy
syntax.  An entry written without a guard in the C array has guard
Always (the zero enumerator); the endGroup and endOpts sentinels become
the end of the sequence.  The guard of a group entry decides only
whether the group body runs, which the oracle of the run semantics
already covers, so it is not recorded; no group entry carries a
last-run-setting guard (the switch asserts optNum < numOpts in those
cases, and the tables obey it).  An entry naming the enclosing group
itself (the tail self-references at lines 199, 371) re-runs the same
body and is subsumed by the enclosing repetition, so it is rendered as a
group with an empty body.
-/

/-- Table localValuePropagationOpts, lines 149-155. -/
def localValuePropagationOptsSE : SE := seqOf
  [.op localCSE .Always,
   .op localValuePropagation .Always,
   .op localCSE .IfEnabled,
   .op localValuePropagation .IfEnabled]

/-- Table arrayPrivatizationOpts, lines 157-170. -/
def arrayPrivatizationOptsSE : SE := seqOf
  [.op globalValuePropagation .IfMoreThanOneBlock,
   .grp veryCheapGlobalValuePropagationGroup false (seqOf [.op globalValuePropagation .IfMoreThanOneBlock]),
   .op inductionVariableAnalysis .IfLoops,
   .op loopCanonicalization .IfLoops,
   .op treeSimplification .Always,
   .op deadTreesElimination .Always,
   .op basicBlockOrdering .IfLoops,
   .op treesCleansing .IfLoops,
   .op inductionVariableAnalysis .IfLoops,
   .op basicBlockOrdering .IfEnabled,
   .op globalValuePropagation .IfEnabledAndMoreThanOneBlock]

/-- Table reorderArrayIndexOpts, lines 173-178. -/
def reorderArrayIndexOptsSE : SE := seqOf
  [.op inductionVariableAnalysis .IfLoops,
   .op reorderArrayIndexExpr .IfLoops]

/-- Table eachEscapeAnalysisPassOpts, lines 194-200 (the entry at line
199 names the group itself). -/
def eachEscapeAnalysisPassOptsSE : SE := seqOf
  [.op preEscapeAnalysis .IfOSR,
   .op escapeAnalysis .Always,
   .op postEscapeAnalysis .IfOSR,
   .grp eachEscapeAnalysisPassGroup true .nilE]

/-- Table expensiveObjectAllocationOpts, lines 188-192. -/
def expensiveObjectAllocationOptsSE : SE := seqOf
  [.grp eachEscapeAnalysisPassGroup true eachEscapeAnalysisPassOptsSE,
   .op explicitNewInitialization .IfNews]

/-- Table veryCheapGlobalValuePropagationOpts, lines 202-205. -/
def veryCheapGlobalValuePropagationOptsSE : SE := seqOf
  [.op globalValuePropagation .IfMoreThanOneBlock]

/-- Table eachExpensiveGlobalValuePropagationOpts, lines 255-267 (the
entry at line 266 names the group itself). -/
def eachExpensiveGlobalValuePropagationOptsSE : SE := seqOf
  [.op globalValuePropagation .IfMoreThanOneBlock,
   .op treeSimplification .IfEnabled,
   .grp veryCheapGlobalValuePropagationGroup false veryCheapGlobalValuePropagationOptsSE,
   .op deadTreesElimination .Always,
   .grp expensiveObjectAllocationGroup false expensiveObjectAllocationOptsSE,
   .grp eachExpensiveGlobalValuePropagationGroup true .nilE]

/-- Table veryExpensiveGlobalValuePropagationOpts, lines 269-284. -/
def veryExpensiveGlobalValuePropagationOptsSE : SE := seqOf
  [.grp eachExpensiveGlobalValuePropagationGroup true eachExpensiveGlobalValuePropagationOptsSE,
   .op localDeadStoreElimination .Always,
   .op treeSimplification .IfEnabled,
   .op catchBlockRemoval .IfEnabled,
   .op osrExceptionEdgeRemoval .Always,
   .op redundantMonitorElimination .IfEnabled,
   .op redundantMonitorElimination .IfEnabled,
   .op globalValuePropagation .IfEnabledAndMoreThanOneBlock,
   .op virtualGuardTailSplitter .IfEnabled,
   .op CFGSimplification .Always]

/-- Table loopVersionerOpts, lines 435-441. -/
def loopVersionerOptsSE : SE := seqOf
  [.op basicBlockOrdering .Always,
   .op inductionVariableAnalysis .IfLoops,
   .op loopCanonicalization .Always,
   .op loopVersioner .Always]

/-- Table lastLoopVersionerOpts, lines 443-448. -/
def lastLoopVersionerOptsSE : SE := seqOf
  [.op inductionVariableAnalysis .IfLoops,
   .op loopCanonicalization .Always,
   .op loopVersioner .MarkLastRun]

/-- Table partialRedundancyEliminationOpts, lines 286-354. -/
def partialRedundancyEliminationOptsSE : SE := seqOf
  [.op globalValuePropagation .IfMoreThanOneBlock,
   .op deadTreesElimination .Always,
   .op treeSimplification .IfEnabled,
   .op treeSimplification .Always,
   .op treeSimplification .IfEnabled,
   .grp reorderArrayExprGroup false reorderArrayIndexOptsSE,
   .op partialRedundancyElimination .IfMoreThanOneBlock,
   .op localCSE .Always,
   .op catchBlockRemoval .IfEnabled,
   .op deadTreesElimination .IfEnabled,
   .op compactNullChecks .IfEnabled,
   .op localReordering .IfEnabled,
   .op globalValuePropagation .IfEnabledAndMoreThanOneBlockMarkLastRun,
   .op preEscapeAnalysis .IfOSR,
   .op escapeAnalysis .IfEAOpportunitiesMarkLastRun,
   .op postEscapeAnalysis .IfOSR,
   .op basicBlockOrdering .IfLoops,
   .op globalCopyPropagation .IfLoops,
   .grp loopVersionerGroup false loopVersionerOptsSE,
   .op treeSimplification .IfEnabled,
   .op treesCleansing .Always,
   .op redundantGotoElimination .IfNotJitProfiling,
   .op loopReduction .IfLoops,
   .op localCSE .IfEnabled,
   .op globalDeadStoreElimination .IfEnabledAndMoreThanOneBlock,
   .op deadTreesElimination .Always,
   .op loopReduction .Always,
   .op idiomRecognition .IfLoopsAndNotProfiling,
   .grp lastLoopVersionerGroup false lastLoopVersionerOptsSE,
   .op treeSimplification .Always,
   .op deadTreesElimination .Always,
   .op inductionVariableAnalysis .IfLoopsAndNotProfiling,
   .op SPMDKernelParallelization .IfLoops,
   .op loopStrider .IfLoops,
   .op treeSimplification .IfEnabled,
   .grp lastLoopVersionerGroup false lastLoopVersionerOptsSE,
   .op treeSimplification .Always,
   .op localCSE .Always,
   .op deadTreesElimination .Always,
   .op loopStrider .IfLoops,
   .op treeSimplification .IfEnabled,
   .op loopInversion .IfLoops]

/-- Table methodHandleInvokeInliningOpts, lines 356-373 (the entry at
line 371 names the group itself). -/
def methodHandleInvokeInliningOptsSE : SE := seqOf
  [.op treeSimplification .Always,
   .op localCSE .Always,
   .op localValuePropagation .Always,
   .op targetedInlining .Always,
   .op deadTreesElimination .Always,
   .grp methodHandleInvokeInliningGroup true .nilE]

/-- Table earlyGlobalOpts, lines 375-390. -/
def earlyGlobalOptsSE : SE := seqOf
  [.grp methodHandleInvokeInliningGroup true methodHandleInvokeInliningOptsSE,
   .op inlining .Always,
   .op osrExceptionEdgeRemoval .Always,
   .op treeSimplification .IfEnabled,
   .op compactNullChecks .Always,
   .op virtualGuardTailSplitter .Always,
   .op treeSimplification .Always,
   .op CFGSimplification .Always]

/-- Table earlyLocalOpts, lines 392-406. -/
def earlyLocalOptsSE : SE := seqOf
  [.op localValuePropagation .Always,
   .op localReordering .Always,
   .op switchAnalyzer .Always,
   .op treeSimplification .IfEnabled,
   .op catchBlockRemoval .Always,
   .op deadTreesElimination .Always,
   .op profiledNodeVersioning .Always]

/-- Table globalDeadStoreOpts, lines 414-418. -/
def globalDeadStoreOptsSE : SE := seqOf
  [.op globalDeadStoreElimination .IfMoreThanOneBlock,
   .op deadTreesElimination .Always]

/-- Table loopSpecializerOpts, lines 428-433. -/
def loopSpecializerOptsSE : SE := seqOf
  [.op inductionVariableAnalysis .IfLoops,
   .op loopCanonicalization .Always,
   .op loopSpecializer .Always]

/-- Table loopCanonicalizationOpts, lines 450-462. -/
def loopCanonicalizationOptsSE : SE := seqOf
  [.op globalCopyPropagation .IfLoops,
   .grp loopVersionerGroup false loopVersionerOptsSE,
   .op deadTreesElimination .Always,
   .op treeSimplification .Always,
   .op fieldPrivatization .Always,
   .op treeSimplification .Always,
   .grp loopSpecializerGroup false loopSpecializerOptsSE,
   .op deadTreesElimination .IfEnabledAndLoops,
   .op treeSimplification .IfEnabledAndLoops]

/-- Table stripMiningOpts, lines 464-470. -/
def stripMiningOptsSE : SE := seqOf
  [.op inductionVariableAnalysis .IfLoops,
   .op loopCanonicalization .Always,
   .op inductionVariableAnalysis .Always,
   .op stripMining .Always]

/-- Table blockManipulationOpts, lines 472-485. -/
def blockManipulationOptsSE : SE := seqOf
  [.op coldBlockOutlining .Always,
   .op CFGSimplification .IfNotJitProfiling,
   .op basicBlockHoisting .IfNotJitProfiling,
   .op treeSimplification .Always,
   .op redundantGotoElimination .IfNotJitProfiling,
   .op treesCleansing .Always,
   .op virtualGuardHeadMerger .Always,
   .op basicBlockExtension .MarkLastRun,
   .op treeSimplification .Always,
   .op basicBlockPeepHole .IfEnabled]

/-- Table eachLocalAnalysisPassOpts, lines 487-500. -/
def eachLocalAnalysisPassOptsSE : SE := seqOf
  [.grp localValuePropagationGroup false localValuePropagationOptsSE,
   .op arraycopyTransformation .Always,
   .op treeSimplification .IfEnabled,
   .op localCSE .IfEnabled,
   .op localDeadStoreElimination .IfEnabled,
   .op rematerialization .IfEnabled,
   .op compactNullChecks .IfEnabled,
   .op deadTreesElimination .IfEnabled]

/-- Table lateLocalOpts, lines 502-515. -/
def lateLocalOptsSE : SE := seqOf
  [.grp eachLocalAnalysisPassGroup true eachLocalAnalysisPassOptsSE,
   .op andSimplification .Always,
   .op treesCleansing .Always,
   .grp eachLocalAnalysisPassGroup true eachLocalAnalysisPassOptsSE,
   .op localDeadStoreElimination .Always,
   .op deadTreesElimination .Always,
   .grp globalDeadStoreGroup false globalDeadStoreOptsSE,
   .grp eachLocalAnalysisPassGroup true eachLocalAnalysisPassOptsSE,
   .op treeSimplification .Always]

/-- Table tacticalGlobalRegisterAllocatorOpts, lines 517-534. -/
def tacticalGlobalRegisterAllocatorOptsSE : SE := seqOf
  [.op inductionVariableAnalysis .IfLoops,
   .op loopCanonicalization .IfLoops,
   .op liveRangeSplitter .IfLoops,
   .op redundantGotoElimination .IfNotJitProfiling,
   .op treeSimplification .MarkLastRun,
   .op tacticalGlobalRegisterAllocator .IfEnabled,
   .op localCSE .Always,
   .op globalCopyPropagation .IfEnabledAndMoreThanOneBlock,
   .op localCSE .Always,
   .grp globalDeadStoreGroup false globalDeadStoreOptsSE,
   .op redundantGotoElimination .IfEnabledAndNotJitProfiling,
   .op deadTreesElimination .Always,
   .op deadTreesElimination .IfEnabled,
   .op deadTreesElimination .IfEnabled]

/-- Table finalGlobalOpts, lines 536-547. -/
def finalGlobalOptsSE : SE := seqOf
  [.op rematerialization .Always,
   .op compactNullChecks .IfEnabled,
   .op deadTreesElimination .Always,
   .op localLiveRangeReduction .Always,
   .op compactLocals .IfNotJitProfiling,
   .op globalLiveVariablesForGC .Always]

/-- Table ilgenStrategyOpts, lines 555-573. -/
def ilgenStrategySE : SE := seqOf
  [.op osrLiveRangeAnalysis .IfOSR,
   .op osrDefAnalysis .IfInvoluntaryOSR,
   .op methodHandleTransformer .Always,
   .op varHandleTransformer .MustBeDone,
   .op handleRecompilationOps .MustBeDone,
   .op unsafeFastPath .Always,
   .op recognizedCallTransformer .Always,
   .op coldBlockMarker .Always,
   .op CFGSimplification .Always,
   .op allocationSinking .IfNews,
   .op invariantArgumentPreexistence .IfNotClassLoadPhaseAndNotProfiling]

/-- Table omrNoOptStrategyOpts, lines 581-584. -/
def omrNoOptStrategySE : SE := seqOf []

/-- Table omrColdStrategyOpts, lines 586-594. -/
def omrColdStrategySE : SE := seqOf
  [.op basicBlockExtension .Always,
   .op localCSE .Always,
   .op treeSimplification .Always,
   .op localCSE .Always]

/-- Table omrWarmStrategyOpts, lines 596-606. -/
def omrWarmStrategySE : SE := seqOf
  [.op basicBlockExtension .Always,
   .op localCSE .Always,
   .op treeSimplification .Always,
   .op localCSE .Always,
   .op localDeadStoreElimination .Always,
   .grp globalDeadStoreGroup false globalDeadStoreOptsSE]

/-- Table omrHotStrategyOpts, lines 608-696. -/
def omrHotStrategySE : SE := seqOf
  [.op coldBlockOutlining .Always,
   .grp earlyGlobalGroup false earlyGlobalOptsSE,
   .grp earlyLocalGroup false earlyLocalOptsSE,
   .op andSimplification .Always,
   .grp stripMiningGroup false stripMiningOptsSE,
   .op loopReplicator .Always,
   .op blockSplitter .Always,
   .grp arrayPrivatizationGroup false arrayPrivatizationOptsSE,
   .grp veryExpensiveGlobalValuePropagationGroup false veryExpensiveGlobalValuePropagationOptsSE,
   .grp globalDeadStoreGroup false globalDeadStoreOptsSE,
   .op globalCopyPropagation .Always,
   .grp loopCanonicalizationGroup false loopCanonicalizationOptsSE,
   .op expressionsSimplification .Always,
   .grp partialRedundancyEliminationGroup false partialRedundancyEliminationOptsSE,
   .op globalDeadStoreElimination .Always,
   .op inductionVariableAnalysis .Always,
   .grp loopSpecializerGroup false loopSpecializerOptsSE,
   .op inductionVariableAnalysis .Always,
   .op generalLoopUnroller .Always,
   .op blockSplitter .MarkLastRun,
   .grp blockManipulationGroup false blockManipulationOptsSE,
   .grp lateLocalGroup false lateLocalOptsSE,
   .op redundantAsyncCheckRemoval .Always,
   .op recompilationModifier .Always,
   .op globalCopyPropagation .Always,
   .op generalStoreSinking .Always,
   .op localCSE .Always,
   .op treeSimplification .Always,
   .op trivialBlockExtension .Always,
   .op localDeadStoreElimination .Always,
   .op localCSE .Always,
   .op arraysetStoreElimination .Always,
   .op localValuePropagation .MarkLastRun,
   .op checkcastAndProfiledGuardCoalescer .Always,
   .op osrExceptionEdgeRemoval .MarkLastRun,
   .grp tacticalGlobalRegisterAllocatorGroup false tacticalGlobalRegisterAllocatorOptsSE,
   .op globalDeadStoreElimination .Always,
   .op deadTreesElimination .Always,
   .op compactNullChecks .Always,
   .grp finalGlobalGroup false finalGlobalOptsSE,
   .op regDepCopyRemoval .Always]

/-- Guard evaluation sets the last-run flag exactly for the guard kinds
recorded by setsLastRun, whatever the requested flag and the compilation
predicates are. -/
theorem evalGuard_setsLastRun (g : GuardKind) (r : Bool) (env : CompEnv) :
    (evalGuard g r env).justSetLastRun = setsLastRun g := by
  cases g <;> rfl

/-- A true disjointness check separates the two lists. -/
theorem disjointNat_spec {l1 l2 : List Nat} (h : disjointNat l1 l2 = true) :
    ∀ x ∈ l1, x ∉ l2 := by
  intro x hx
  have h2 := List.all_eq_true.mp h x hx
  exact of_decide_eq_true h2

/-- Safety of a bounded repetition of a body runner: when one body run
is safe and only raises flags of its setter optimizations, and the
setter and non-setter optimizations of the body are separated, any
number of repetitions is safe and raises only setter flags. -/
theorem runRepN_safe (runBody : (Nat → Bool) → List Nat → RunRes)
    (S NS : List Nat)
    (hbody : ∀ lr o, (∀ x, lr x = true → x ∉ NS) →
      (runBody lr o).safe = true ∧
      ∀ x, (runBody lr o).lastRun x = true → lr x = true ∨ x ∈ S)
    (hdisj : ∀ x ∈ S, x ∉ NS) :
    ∀ n lr o, (∀ x, lr x = true → x ∉ NS) →
      (runRepN runBody n lr o).safe = true ∧
      ∀ x, (runRepN runBody n lr o).lastRun x = true → lr x = true ∨ x ∈ S := by
  intro n
  induction n with
  | zero => intro lr o _; exact ⟨rfl, fun x h => Or.inl h⟩
  | succ n ih =>
    intro lr o hinv
    obtain ⟨ha, hpa⟩ := hbody lr o hinv
    have hinv1 : ∀ x, (runBody lr o).lastRun x = true → x ∉ NS := by
      intro x hx
      rcases hpa x hx with h | h
      · exact hinv x h
      · exact hdisj x h
    obtain ⟨hb, hpb⟩ := ih (runBody lr o).lastRun (runBody lr o).rem hinv1
    refine ⟨?_, ?_⟩
    · simp [runRepN, ha, hb]
    · intro x hx
      simp only [runRepN] at hx
      rcases hpb x hx with h | h
      · exact hpa x h
      · exact Or.inr h

/-- Safety of at most one repetition of a body runner needs no
separation of setters and non-setters. -/
theorem runRepN_safe_le_one (runBody : (Nat → Bool) → List Nat → RunRes)
    (S NS : List Nat)
    (hbody : ∀ lr o, (∀ x, lr x = true → x ∉ NS) →
      (runBody lr o).safe = true ∧
      ∀ x, (runBody lr o).lastRun x = true → lr x = true ∨ x ∈ S) :
    ∀ n, n ≤ 1 → ∀ lr o, (∀ x, lr x = true → x ∉ NS) →
      (runRepN runBody n lr o).safe = true ∧
      ∀ x, (runRepN runBody n lr o).lastRun x = true → lr x = true ∨ x ∈ S := by
  intro n hn lr o hinv
  match n, hn with
  | 0, _ => exact ⟨rfl, fun x h => Or.inl h⟩
  | 1, _ =>
    obtain ⟨ha, hpa⟩ := hbody lr o hinv
    refine ⟨?_, ?_⟩
    · simp [runRepN, ha]
    · intro x hx
      simp only [runRepN] at hx
      exact hpa x hx

/-- Main safety lemma of the last-run development: a strategy satisfying
the static last-run discipline runs safely from any flag state that
avoids its non-setter optimizations, and raises only the flags of its
setter optimizations. -/
theorem runF_safe : ∀ (fuel : Nat) (se : SE) (lr : Nat → Bool) (o : List Nat),
    seOk se = true → (∀ x, lr x = true → x ∉ nonSetterOpts se) →
    (runF fuel se lr o).safe = true ∧
    ∀ x, (runF fuel se lr o).lastRun x = true → lr x = true ∨ x ∈ setterOpts se := by
  intro fuel
  induction fuel with
  | zero => intro se lr o _ _; exact ⟨rfl, fun x h => Or.inl h⟩
  | succ fuel ih =>
    intro se lr o hok hinv
    cases se with
    | op x g =>
      by_cases hs : setsLastRun g
      · refine ⟨by simp [runF, hs], ?_⟩
        intro y hy
        simp only [runF, hs, if_true] at hy
        by_cases hxy : y = x
        · subst hxy; exact Or.inr (by simp [setterOpts, hs])
        · simp only [if_neg hxy] at hy; exact Or.inl hy
      · refine ⟨?_, ?_⟩
        · have : lr x = false := by
            by_contra hc
            have hx := hinv x (by revert hc; cases lr x <;> simp)
            exact hx (by simp [nonSetterOpts, hs])
          simp [runF, hs, this]
        · intro y hy
          simp only [runF, hs, if_false] at hy
          exact Or.inl hy
    | nilE => exact ⟨by simp [runF], fun x h => Or.inl (by simpa [runF] using h)⟩
    | consE e rest =>
      simp only [seOk, Bool.and_eq_true] at hok
      obtain ⟨⟨hoke, hokr⟩, hdisj⟩ := hok
      have hinve : ∀ x, lr x = true → x ∉ nonSetterOpts e := by
        intro x hx hmem
        exact hinv x hx (by simp [nonSetterOpts, List.mem_append]; exact Or.inl hmem)
      obtain ⟨ha, hpa⟩ := ih e lr o hoke hinve
      have hinvr : ∀ x, (runF fuel e lr o).lastRun x = true → x ∉ nonSetterOpts rest := by
        intro x hx hmem
        rcases hpa x hx with h | h
        · exact hinv x h (by simp [nonSetterOpts, List.mem_append]; exact Or.inr hmem)
        · exact disjointNat_spec hdisj x h hmem
      obtain ⟨hb, hpb⟩ := ih rest (runF fuel e lr o).lastRun (runF fuel e lr o).rem hokr hinvr
      refine ⟨?_, ?_⟩
      · simp [runF, ha, hb]
      · intro x hx
        simp only [runF] at hx
        rcases hpb x hx with h | h
        · rcases hpa x h with h2 | h2
          · exact Or.inl h2
          · exact Or.inr (by simp [setterOpts, List.mem_append]; exact Or.inl h2)
        · exact Or.inr (by simp [setterOpts, List.mem_append]; exact Or.inr h)
    | grp num rep body =>
      simp only [seOk, Bool.and_eq_true] at hok
      obtain ⟨hokb, hrep⟩ := hok
      have hbody : ∀ lr1 o1, (∀ x, lr1 x = true → x ∉ nonSetterOpts body) →
          (runF fuel body lr1 o1).safe = true ∧
          ∀ x, (runF fuel body lr1 o1).lastRun x = true → lr1 x = true ∨ x ∈ setterOpts body := by
        intro lr1 o1 hi
        exact ih body lr1 o1 hokb hi
      have hinvb : ∀ x, lr x = true → x ∉ nonSetterOpts body := by
        intro x hx
        exact hinv x hx
      cases o with
      | nil =>
        exact ⟨by simp [runF], fun x h => Or.inl (by simpa [runF] using h)⟩
      | cons n o1 =>
        cases rep with
        | false =>
          have hle : min n 1 ≤ 1 := Nat.min_le_right n 1
          have := runRepN_safe_le_one (runF fuel body) (setterOpts body) (nonSetterOpts body)
            hbody (min n 1) hle lr o1 hinvb
          exact ⟨by simpa [runF] using this.1,
                 fun x hx => this.2 x (by simpa [runF] using hx)⟩
        | true =>
          have hdj : ∀ x ∈ setterOpts body, x ∉ nonSetterOpts body := by
            have : disjointNat (setterOpts body) (nonSetterOpts body) = true := by
              simpa using hrep
            exact disjointNat_spec this
          have := runRepN_safe (runF fuel body) (setterOpts body) (nonSetterOpts body)
            hbody hdj n lr o1 hinvb
          exact ⟨by simpa [runF] using this.1,
                 fun x hx => this.2 x (by simpa [runF] using hx)⟩

/-- The table eachLocalAnalysisPassOpts, lines 487-500, as strategy
entries (the endGroup sentinel becomes the end of the list; an entry
written without a guard has guard Always, the zero enumerator). -/
def eachLocalAnalysisPassStrategy : List StratEntry :=
  [⟨localValuePropagationGroup, .IfEnabled⟩,
   ⟨arraycopyTransformation, .Always⟩,
   ⟨treeSimplification, .IfEnabled⟩,
   ⟨localCSE, .IfEnabled⟩,
   ⟨localDeadStoreElimination, .IfEnabled⟩,
   ⟨rematerialization, .IfEnabled⟩,
   ⟨compactNullChecks, .IfEnabled⟩,
   ⟨deadTreesElimination, .IfEnabled⟩]

theorem stageAliases_optIndex (mgr : ManagerModel) (st : OptState) (c : Nat) :
    (stageAliases mgr st c).1.comp.optIndex = st.comp.optIndex := by
  unfold stageAliases; split <;> rfl

theorem stageStructure_optIndex (mgr : ManagerModel) (env : CompEnv) (th : ComplexityThresholds)
    (oracle : PassOracle) (st : OptState) (c : Nat) :
    (stageStructure mgr env th oracle st c).1.comp.optIndex = st.comp.optIndex := by
  unfold stageStructure
  dsimp only
  repeat' split
  all_goals rfl

theorem stagePreUseDef_optIndex (mgr : ManagerModel) (oracle : PassOracle) (st : OptState) :
    (stagePreUseDef mgr oracle st).comp.optIndex = st.comp.optIndex := by
  unfold stagePreUseDef
  dsimp only
  repeat' split
  all_goals rfl

theorem stageBuildUseDef_optIndex (mgr : ManagerModel) (oracle : PassOracle) (st : OptState)
    (c : Nat) :
    (stageBuildUseDef mgr oracle st c).1.comp.optIndex = st.comp.optIndex := by
  unfold stageBuildUseDef
  dsimp only
  repeat' split
  all_goals rfl

theorem stageBuildValueNumbers_optIndex (mgr : ManagerModel) (oracle : PassOracle) (st : OptState)
    (c : Nat) :
    (stageBuildValueNumbers mgr oracle st c).1.comp.optIndex = st.comp.optIndex := by
  unfold stageBuildValueNumbers
  dsimp only
  repeat' split
  all_goals rfl

theorem stageFrequencies_optIndex (mgr : ManagerModel) (st : OptState) :
    (stageFrequencies mgr st).comp.optIndex = st.comp.optIndex := by
  unfold stageFrequencies; split <;> rfl

theorem applyPassEffect_optIndex (oracle : PassOracle) (st : OptState) :
    (applyPassEffect oracle st).comp.optIndex = st.comp.optIndex := rfl

theorem reconcileCaches_optIndex (n0 s0 : Nat) (m : Bool) (st : OptState) :
    (reconcileCaches n0 s0 m st).comp.optIndex = st.comp.optIndex := by
  unfold reconcileCaches
  dsimp only
  repeat' split
  all_goals rfl

theorem stageVisitReset_optIndex (st : OptState) :
    (stageVisitReset st).comp.optIndex = st.comp.optIndex := by
  unfold stageVisitReset; split <;> rfl

theorem stageUnreachable_optIndex (st : OptState) :
    (stageUnreachable st).comp.optIndex = st.comp.optIndex := by
  unfold stageUnreachable; split <;> rfl

/-- The post-shouldPerform body never touches the optimization index. -/
theorem performRealOpt_optIndex (g : GuardOutcome) (mgr : ManagerModel) (env : CompEnv)
    (th : ComplexityThresholds) (oracle : PassOracle) (st : OptState) :
    (performRealOpt g mgr env th oracle st).state.comp.optIndex = st.comp.optIndex := by
  unfold performRealOpt
  dsimp only
  repeat' split
  all_goals simp [stageUnreachable_optIndex, stageVisitReset_optIndex, reconcileCaches_optIndex,
    applyPassEffect_optIndex, stageFrequencies_optIndex, stageBuildValueNumbers_optIndex,
    stageBuildUseDef_optIndex, stagePreUseDef_optIndex, stageStructure_optIndex,
    stageAliases_optIndex]

/-- Concrete compilation environment for the witnesses: every predicate
and option off. -/
def envW : CompEnv where
  mayHaveLoops := false
  hasMoreThanOneBlock := false
  isProfilingCompilation := false
  profilingModeIsJit := false
  hasNews := false
  isOptServer := false
  mayContainMonitors := false
  isClassLoadingPhase := false
  dontDowngradeToCold := false
  fullSpeedDebug := false
  enableOSR := false
  fullInlineUnderOSRDebug := false
  osrModeVoluntary := false
  osrModeInvoluntary := false
  compileRelocatableCode := false
  enableColdCheapTacticalGRA := false
  disableAOTColdCheapTacticalGRA := false
  hasMethodHandleInvokes := false
  disableMethodHandleInvokeOpts := false
  quickstartDetected := false
  hasEscapeAnalysisOpportunities := false
  enableAggressiveLiveness := false
  hasVectorAPI := false
  disableVectorAPIExpansion := false
  ignoreIfNotProfilingDebug := false
  processHugeMethods := false
  mimicInterpreterFrameShape := false
  hotnessGeVeryHot := false
  isIlGenOpt := false

/-- Concrete manager for the witnesses: no capability flags, nothing
requested. -/
def mgrW : ManagerModel where
  requested := false
  requestedBlocksNonempty := false
  lastRun := false
  performOnlyOnEnabledBlocks := false
  requiresStructure := false
  requiresUseDefInfo := false
  requiresGlobalsUseDefInfo := false
  requiresValueNumbering := false
  requiresGlobalsValueNumbering := false
  maintainsUseDefInfo := false
  doesNotRequireAliasSets := false
  doNotSetFrequencies := false
  stronglyPrefersGlobalsValueNumbering := false
  doesNotRequireLoadsAsDefsInUseDefs := false
  cannotOmitTrivialDefs := false
  prefersGlobalsUseDefInfo := false
  prefersGlobalsValueNumbering := false

/-- Concrete thresholds for the witnesses. -/
def thW : ComplexityThresholds := ⟨10, 10, 12⟩

/-- Concrete collaborator behaviour for the witnesses: every gate open,
every analysis build succeeds, the pass body leaves zero counters, no
cancellation. -/
def oracleW : PassOracle where
  isEnabled := true
  disabledOptsMatchIndex := false
  disabledOptsMatchName := false
  shouldPerform := true
  structureBuilds := true
  structureCost := 0
  countedLoops := 0
  cantBuildGlobalsUseDefInfo := false
  cantBuildLocalsUseDefInfo := false
  useDefInfoIsValid := true
  builtUseDefHasGlobals := false
  cantBuildGlobalsValueNumberInfo := false
  cantBuildLocalsValueNumberInfo := false
  valueNumberInfoIsValid := true
  builtValueNumberHasGlobals := false
  cfgBlockCount := 0
  cfgLoopCount := 0
  blocksContainStartOrEnd := false
  canRunBlockByBlock := false
  passNodeCount := 0
  passSymRefCount := 0
  passVisitCount := 0
  passCost := 0
  interrupted := false
  removeDeadNodes := false
  groupEffect := fun st => st
  groupFailure := none
  groupCost := 0
  insufficientlyAggressive := false

/-- Concrete outermost compilation state for the witnesses. -/
def stOutermostW : OptState :=
  ⟨⟨5, 0, 0, 0, true, false, false, false, 0⟩, true, none, none, true, true, false⟩

/-- Concrete non-outermost compilation state for the C8 counterexample. -/
def stInnerW : OptState :=
  ⟨⟨5, 0, 0, 0, false, false, false, false, 0⟩, true, none, none, true, true, false⟩

/-- C8 (counterexample to the claim as stated): on a compilation that is
not the outermost method, performOptimization on a non-group entry
leaves the global optimization index unchanged, so the index is not
incremented by exactly one on every invocation. -/
theorem performOptimization_optIndex_counterexample :
    ¬ ((performOptimizationModel ⟨localCSE, .Always⟩ mgrW envW thW oracleW 0 1000 stInnerW).state.comp.optIndex
        = stInnerW.comp.optIndex + 1) := by
  decide

/-- C8 (amended): for every invocation of performOptimization on a
non-group strategy entry of an outermost compilation, the global
optimization index is incremented by exactly one, whether or not the
pass is actually performed (skipped passes are counted too, line 3437);
on a non-outermost compilation the index is left unchanged. -/
theorem performOptimization_increments_optIndex (entry : StratEntry) (mgr : ManagerModel)
    (env : CompEnv) (th : ComplexityThresholds) (oracle : PassOracle)
    (firstOptIndex lastOptIndex : Nat) (st : OptState)
    (hng : entry.num < numOpts) (hout : st.comp.isOutermostMethod = true) :
    (performOptimizationModel entry mgr env th oracle firstOptIndex lastOptIndex st).state.comp.optIndex
      = st.comp.optIndex + 1 := by
  unfold performOptimizationModel
  have hgt : ¬ (entry.num > numOpts) := by omega
  dsimp only
  simp only [decide_eq_false hgt, Bool.false_and, Bool.false_eq_true, if_false, hout, if_true]
  repeat' split
  all_goals simp [performRealOpt_optIndex]

/-- Witness for the amended C8 theorem at a concrete outermost state. -/
theorem performOptimization_increments_optIndex_witness :
    localCSE < numOpts ∧ stOutermostW.comp.isOutermostMethod = true ∧
    (performOptimizationModel ⟨localCSE, .Always⟩ mgrW envW thW oracleW 0 1000 stOutermostW).state.comp.optIndex
      = stOutermostW.comp.optIndex + 1 :=
  ⟨by decide, by decide,
   performOptimization_increments_optIndex ⟨localCSE, .Always⟩ mgrW envW thW oracleW 0 1000
     stOutermostW (by decide) (by decide)⟩

/-- C2: after any pass run by performOptimization, if the compilation's
node count grew during the pass, the cache reconciliation of lines
3878-3885 sets the value-number info to null, and sets the use-def info
to null as well unless the pass's manager declares maintains-use-defs. -/
theorem nodeCount_growth_invalidates_caches (origNodeCount origSymRefCount : Nat)
    (maintainsUseDefInfo : Bool) (st : OptState)
    (h : st.comp.nodeCount > origNodeCount) :
    (reconcileCaches origNodeCount origSymRefCount maintainsUseDefInfo st).valueNumberInfo = none ∧
    (maintainsUseDefInfo = false →
      (reconcileCaches origNodeCount origSymRefCount maintainsUseDefInfo st).useDefInfo = none) := by
  by_cases hm : maintainsUseDefInfo <;>
    by_cases hs : st.comp.symRefCount = origSymRefCount <;>
      simp [reconcileCaches, h, hm, hs]

/-- Concrete state for the C2 witness: a pass left node count 2 (it was
1 before) with both analyses cached. -/
def stNodeW : OptState :=
  ⟨⟨0, 2, 3, 0, true, false, false, false, 0⟩, true, some ⟨false, false⟩, some ⟨false⟩, true, true, false⟩

/-- Witness for the C2 theorem at concrete counts. -/
theorem nodeCount_growth_invalidates_caches_witness :
    stNodeW.comp.nodeCount > 1 ∧
    (reconcileCaches 1 3 false stNodeW).valueNumberInfo = none ∧
    (reconcileCaches 1 3 false stNodeW).useDefInfo = none :=
  ⟨by decide, (nodeCount_growth_invalidates_caches 1 3 false stNodeW (by decide)).1,
   (nodeCount_growth_invalidates_caches 1 3 false stNodeW (by decide)).2 rfl⟩

/-- C7: when the pass requires structure and structure is present, a
method whose block count or loop count reaches the thresholds (with the
raised loop limit at veryHot and above and doubled limits on an opt
server) makes the complexity gate of performOptimization fail the
compilation with the typed failure ExcessiveComplexity, unless the
process-huge-methods override option is set; the failure is a value of
the compilation-failure type, aborting only that compilation. -/
theorem complexity_gate_fails_with_excessiveComplexity (th : ComplexityThresholds)
    (env : CompEnv) (requiresStructure structurePresent : Bool)
    (numBasicBlocks numLoops : Nat)
    (h1 : requiresStructure = true) (h2 : structurePresent = true)
    (h3 : checkNumberOfLoopsAndBasicBlocks th numBasicBlocks numLoops
            env.hotnessGeVeryHot env.isOptServer = true)
    (h4 : env.processHugeMethods = false) :
    complexityGate th env requiresStructure structurePresent numBasicBlocks numLoops
      = some .excessiveComplexity := by
  simp [complexityGate, h1, h2, h3, h4]

/-- Witness for the C7 theorem: 1000 blocks against a limit of 10. -/
theorem complexity_gate_fails_with_excessiveComplexity_witness :
    checkNumberOfLoopsAndBasicBlocks thW 1000 0 envW.hotnessGeVeryHot envW.isOptServer = true ∧
    envW.processHugeMethods = false ∧
    complexityGate thW envW true true 1000 0 = some .excessiveComplexity :=
  ⟨by decide, by decide,
   complexity_gate_fails_with_excessiveComplexity thW envW true true 1000 0 rfl rfl
     (by decide) (by decide)⟩

/-- C9: when optimize returns normally (no typed failure), the
compilation's current-optimizer pointer observed on entry was saved,
replaced by this optimizer for the duration of the run, and is restored
before the return, so the outer-optimizer pointer is preserved. -/
theorem optimize_preserves_outer_optimizer (self : Nat) (strategy : List StratEntry)
    (env : CompEnv) (th : ComplexityThresholds) (oracles : Nat → PassOracle)
    (firstOptIndex lastOptIndex : Nat) (demandsRecompilation : Bool)
    (mgrs : Nat → ManagerModel) (st : OptState)
    (h : (optimizeModel self strategy env th oracles firstOptIndex lastOptIndex
            demandsRecompilation mgrs st).1 = none) :
    (optimizeModel self strategy env th oracles firstOptIndex lastOptIndex
        demandsRecompilation mgrs st).2.2.comp.optimizer = st.comp.optimizer := by
  unfold optimizeModel at h ⊢
  dsimp only at h ⊢
  split at h
  · exact absurd h (by simp)
  · split at h
    · exact absurd h (by simp)
    · rename_i hd
      simp only [if_neg hd]

/-- Witness for the C9 theorem on the empty strategy. -/
theorem optimize_preserves_outer_optimizer_witness :
    (optimizeModel 7 [] envW thW (fun _ => oracleW) 0 1000 false (fun _ => mgrW) stOutermostW).1 = none ∧
    (optimizeModel 7 [] envW thW (fun _ => oracleW) 0 1000 false (fun _ => mgrW) stOutermostW).2.2.comp.optimizer
      = stOutermostW.comp.optimizer :=
  ⟨rfl, optimize_preserves_outer_optimizer 7 [] envW thW (fun _ => oracleW) 0 1000 false
    (fun _ => mgrW) stOutermostW rfl⟩

/-- C1 (evaluation at the failing input): with the
eachLocalAnalysisPassOpts body, the group manager's own requested-block
list empty throughout, and sub-pass localCSE holding pending requested
blocks after each of the first three body runs and none after the
fourth, the group loop as written in this repository exits after a
single iteration, while the re-entry protocol the specification
describes (checking each sub-pass's own pending blocks, as the dead
per-entry optNum of line 3397 indicates was intended) iterates exactly
four times. -/
theorem eachLocalAnalysisPass_reentry_divergence :
    performGroupLoopIters true eachLocalAnalysisPassStrategy (fun _ => false) = 1 ∧
    performGroupLoopItersSpec eachLocalAnalysisPassStrategy
      (fun k e => decide (k ≤ 3) && (e.num == localCSE)) = 4 := by
  exact ⟨rfl, rfl⟩

/-- C3: within one compilation driven by any compilation strategy of
this repository (the omrCompilationStrategies table, lines 702-708, and
the IlGen strategy, lines 555-573), no optimization pass is invoked
after its last-run flag has been set except on the same invocation that
set it: every event of every execution, for every behaviour of the
opaque collaborators (the oracle) and every exploration depth, respects
the discipline asserted at lines 3817 and 3853. -/
theorem no_pass_runs_after_lastRun (strat : SE)
    (hs : strat = omrNoOptStrategySE ∨ strat = omrColdStrategySE ∨
          strat = omrWarmStrategySE ∨ strat = omrHotStrategySE ∨ strat = ilgenStrategySE)
    (fuel : Nat) (o : List Nat) :
    (runF fuel strat (fun _ => false) o).safe = true := by
  have hok : seOk strat = true := by
    rcases hs with h | h | h | h | h <;> subst h <;> decide
  exact (runF_safe fuel strat (fun _ => false) o hok (fun x hx => absurd hx (by simp))).1

/-- Witness for the C3 theorem on the hot strategy. -/
theorem no_pass_runs_after_lastRun_witness :
    (runF 9 omrHotStrategySE (fun _ => false) [3, 2, 1, 4, 0, 2]).safe = true :=
  no_pass_runs_after_lastRun omrHotStrategySE
    (Or.inr (Or.inr (Or.inr (Or.inl rfl)))) 9 [3, 2, 1, 4, 0, 2]

end OMROpt

namespace OMRSig

/-! ### Witness states and registration histories for the signal claims -/

/-- Fresh dispatcher state (no options, no handlers, no attached port
libraries) used by the concrete witnesses. -/
def sW : SigState :=
  ⟨0, 0, 0, 0, 0, [], fun _ => none, fun _ => 0, 0, []⟩

/-- Witness state for the exclusive-bit theorem: one existing record of
the same port library with a different handler. -/
def sC4W : SigState :=
  ⟨0, 0, 0, 0, 0, [⟨1, 5, 5, OMRPORT_SIG_FLAG_SIGABRT⟩], fun _ => none, fun _ => 0, 0, []⟩

/-- Counterexample state: one record of a different port library already
holding the SIGQUIT signal bit in its mask. -/
def sC4X : SigState :=
  ⟨0, 0, 0, 0, 0, [⟨2, 5, 5, OMRPORT_SIG_FLAG_SIGQUIT⟩], fun _ => none, fun _ => 0, 0, []⟩

/-- Witness state for the disposition-restoration theorem: a distinct OS
disposition for every Unix signal number. -/
def sC6W : SigState :=
  ⟨0, 0, 0, 0, 0, [], fun _ => none, fun i => 3000 + i, 0, []⟩

/-- The per-record update performed by one step of setSingleWalk on a
record that is not removed: the matching record of the calling port
library gains the new flag, every other record of that port library has
the signal bit cleared, records of other port libraries are untouched. -/
def singleUpdate (portLibrary handler handler_arg portlibSignalFlag : Nat)
    (r : OMRUnixAsyncHandlerRecord) : OMRUnixAsyncHandlerRecord :=
  if r.portLib == portLibrary then
    if r.handler == handler && r.handler_arg == handler_arg then
      { r with flags := r.flags ||| portlibSignalFlag }
    else
      { r with flags := r.flags &&&
          compl32 (portlibSignalFlag &&& compl32 OMRPORT_SIG_FLAG_CONTROL_BITS_MASK) }
  else r

/-- A registration history folded over the monitor section of
omrsig_set_async_signal_handler: each record of regs is registered in
turn against the growing handler list. -/
def registerAll (regs : List OMRUnixAsyncHandlerRecord)
    (l : List OMRUnixAsyncHandlerRecord) : List OMRUnixAsyncHandlerRecord :=
  regs.foldl
    (fun acc r =>
      omrsig_set_async_signal_handler_list r.portLib r.handler r.handler_arg r.flags acc) l

/-- A history of registerSignalHandlerWithOS calls applied in turn; a
failed call (the OMRPORT_SIG_ERROR return for a signal absent from
signalMap) leaves the state unchanged, as in the source. -/
def applyRegs (ops : List (Nat × Nat)) (s : SigState) : SigState :=
  ops.foldl
    (fun t op =>
      match registerSignalHandlerWithOS op.1 op.2 t with
      | none => t
      | some (t1, _) => t1) s

/-- The registration history used by the ordering witness: three handlers
of one port library with distinct handler addresses. -/
def regsW : List OMRUnixAsyncHandlerRecord :=
  [⟨1, 10, 0, OMRPORT_SIG_FLAG_SIGTERM⟩,
   ⟨1, 11, 0, OMRPORT_SIG_FLAG_SIGTERM ||| OMRPORT_SIG_FLAG_SIGHUP⟩,
   ⟨1, 12, 0, OMRPORT_SIG_FLAG_SIGHUP⟩]

/-- The installation history used by the restoration witness: the SIGTERM
main handler installed twice in a row. -/
def opsC6W : List (Nat × Nat) :=
  [(OMRPORT_SIG_FLAG_SIGTERM, mainASynchSignalHandlerCode),
   (OMRPORT_SIG_FLAG_SIGTERM, mainASynchSignalHandlerCode)]

/-! ### Bit-level facts about the 32-bit mask arithmetic -/

lemma testBit_high_false (x i : Nat) (hx : x < 4294967296) (hi : 32 ≤ i) :
    x.testBit i = false := by
  apply Nat.testBit_eq_false_of_lt
  have h2 : (2 : Nat) ^ 32 = 4294967296 := by norm_num
  have h3 : (2 : Nat) ^ 32 ≤ 2 ^ i := Nat.pow_le_pow_right (by norm_num) hi
  omega

lemma compl32_testBit_lt (x i : Nat) (hi : i < 32) :
    (compl32 x).testBit i = !(x.testBit i) := by
  unfold compl32
  rw [Nat.testBit_xor]
  have h1 : (4294967295 : Nat).testBit i = true := by
    have h2 : (4294967295 : Nat) = 2 ^ 32 - 1 := by norm_num
    rw [h2, Nat.testBit_two_pow_sub_one]
    simpa using hi
  rw [h1]
  cases x.testBit i <;> rfl

lemma and_compl32_and_self (x b : Nat) (hb : b < 4294967296) :
    x &&& compl32 b &&& b = 0 := by
  apply Nat.eq_of_testBit_eq
  intro i
  rw [Nat.testBit_land, Nat.testBit_land, Nat.zero_testBit]
  by_cases hi : i < 32
  · rw [compl32_testBit_lt b i hi]
    cases x.testBit i <;> cases b.testBit i <;> rfl
  · rw [testBit_high_false b i hb (Nat.le_of_not_lt hi)]
    cases x.testBit i <;> cases (compl32 b).testBit i <;> rfl

lemma allBits_or_masked (x f m : Nat) :
    OMR_ARE_ALL_BITS_SET (x ||| f) (f &&& m) = true := by
  unfold OMR_ARE_ALL_BITS_SET
  have h : (x ||| f) &&& (f &&& m) = f &&& m := by
    apply Nat.eq_of_testBit_eq
    intro i
    rw [Nat.testBit_land, Nat.testBit_lor, Nat.testBit_land]
    cases x.testBit i <;> cases f.testBit i <;> cases m.testBit i <;> rfl
  rw [h]
  exact beq_self_eq_true (f &&& m)

lemma allBits_self_masked (f m : Nat) :
    OMR_ARE_ALL_BITS_SET f (f &&& m) = true := by
  unfold OMR_ARE_ALL_BITS_SET
  rw [← Nat.and_assoc, Nat.and_self]
  exact beq_self_eq_true (f &&& m)

lemma allBits_cleared_false (x b : Nat) (hb0 : b ≠ 0) (hb : b < 4294967296) :
    OMR_ARE_ALL_BITS_SET (x &&& compl32 b) b = false := by
  unfold OMR_ARE_ALL_BITS_SET
  rw [and_compl32_and_self x b hb]
  exact beq_eq_false_iff_ne.mpr (Ne.symm hb0)

lemma onebit_ne_zero (b : Nat) (h : OMR_IS_ONLY_ONE_BIT_SET b = true) : b ≠ 0 := by
  unfold OMR_IS_ONLY_ONE_BIT_SET at h
  have h1 := (Bool.and_eq_true _ _).mp h
  intro hb
  rw [hb] at h1
  exact absurd h1.1 (by decide)

/-! ### Field-preservation facts for the bitmask setters and the OS
registration chain -/

lemma setBitMaskSignalsWithHandlers_fields (f : Nat) (t : SigState) :
    (setBitMaskSignalsWithHandlers f t).oldActions = t.oldActions ∧
    (setBitMaskSignalsWithHandlers f t).osAction = t.osAction ∧
    (setBitMaskSignalsWithHandlers f t).attachedPortLibraries = t.attachedPortLibraries ∧
    (setBitMaskSignalsWithHandlers f t).asyncHandlerList = t.asyncHandlerList := by
  unfold setBitMaskSignalsWithHandlers
  split <;> exact ⟨rfl, rfl, rfl, rfl⟩

lemma setBitMaskSignalsWithMainHandlers_fields (f : Nat) (t : SigState) :
    (setBitMaskSignalsWithMainHandlers f t).oldActions = t.oldActions ∧
    (setBitMaskSignalsWithMainHandlers f t).osAction = t.osAction ∧
    (setBitMaskSignalsWithMainHandlers f t).attachedPortLibraries = t.attachedPortLibraries ∧
    (setBitMaskSignalsWithMainHandlers f t).asyncHandlerList = t.asyncHandlerList := by
  unfold setBitMaskSignalsWithMainHandlers
  split <;> exact ⟨rfl, rfl, rfl, rfl⟩

lemma unsetBitMaskSignalsWithMainHandlers_fields (f : Nat) (t : SigState) :
    (unsetBitMaskSignalsWithMainHandlers f t).oldActions = t.oldActions ∧
    (unsetBitMaskSignalsWithMainHandlers f t).osAction = t.osAction ∧
    (unsetBitMaskSignalsWithMainHandlers f t).attachedPortLibraries = t.attachedPortLibraries ∧
    (unsetBitMaskSignalsWithMainHandlers f t).asyncHandlerList = t.asyncHandlerList := by
  unfold unsetBitMaskSignalsWithMainHandlers
  split <;> exact ⟨rfl, rfl, rfl, rfl⟩

lemma registerSignalHandlerWithOS_none (n c : Nat) (t : SigState)
    (hm : mapPortLibSignalToOSSignal n = none) :
    registerSignalHandlerWithOS n c t = none := by
  unfold registerSignalHandlerWithOS
  rw [hm]

lemma registerSignalHandlerWithOS_list (n c : Nat) (t : SigState) :
    ((registerSignalHandlerWithOS n c t).map (fun p => p.1.asyncHandlerList)).getD
      t.asyncHandlerList = t.asyncHandlerList := by
  unfold registerSignalHandlerWithOS setBitMaskSignalsWithHandlers
    setBitMaskSignalsWithMainHandlers unsetBitMaskSignalsWithMainHandlers
  dsimp only
  repeat' split
  all_goals rfl

lemma registerSignalHandlerWithOS_char (n c : Nat) (t : SigState) (u : Nat)
    (hm : mapPortLibSignalToOSSignal n = some u) :
    ∃ t1, registerSignalHandlerWithOS n c t = some (t1, t.osAction u) ∧
      t1.osAction = (fun i => if i = u then c else t.osAction i) ∧
      t1.oldActions = (fun i =>
        if i = u then some ((t.oldActions u).getD (t.osAction u)) else t.oldActions i) ∧
      t1.attachedPortLibraries = t.attachedPortLibraries ∧
      t1.asyncHandlerList = t.asyncHandlerList := by
  unfold registerSignalHandlerWithOS
  rw [hm]
  dsimp only
  cases ho : t.oldActions u with
  | none =>
    refine ⟨_, rfl, ?_, ?_, ?_, ?_⟩
    all_goals
      unfold setBitMaskSignalsWithHandlers setBitMaskSignalsWithMainHandlers
        unsetBitMaskSignalsWithMainHandlers
      dsimp only
      repeat' split
      all_goals rfl
  | some act =>
    refine ⟨_, rfl, ?_, ?_, ?_, ?_⟩
    · unfold setBitMaskSignalsWithHandlers setBitMaskSignalsWithMainHandlers
        unsetBitMaskSignalsWithMainHandlers
      dsimp only
      repeat' split
      all_goals rfl
    · unfold setBitMaskSignalsWithHandlers setBitMaskSignalsWithMainHandlers
        unsetBitMaskSignalsWithMainHandlers
      dsimp only
      repeat' split
      all_goals
        funext i
        by_cases hi : i = u
        · subst hi
          rw [ho]
          simp
        · simp [hi]
    · unfold setBitMaskSignalsWithHandlers setBitMaskSignalsWithMainHandlers
        unsetBitMaskSignalsWithMainHandlers
      dsimp only
      repeat' split
      all_goals rfl
    · unfold setBitMaskSignalsWithHandlers setBitMaskSignalsWithMainHandlers
        unsetBitMaskSignalsWithMainHandlers
      dsimp only
      repeat' split
      all_goals rfl

lemma registerMainHandlersBit_list (m ty c b : Nat) (acc : Option (SigState × Nat))
    (L : List OMRUnixAsyncHandlerRecord)
    (hacc : ∀ p, acc = some p → p.1.asyncHandlerList = L) :
    ∀ p, registerMainHandlersBit m ty c b acc = some p → p.1.asyncHandlerList = L := by
  intro p hp
  unfold registerMainHandlersBit at hp
  cases acc with
  | none => exact absurd hp (by simp)
  | some q =>
    obtain ⟨q1, q2⟩ := q
    dsimp only at hp
    split at hp
    · have h1 := registerSignalHandlerWithOS_list (b ||| ty) c q1
      rw [hp] at h1
      simp at h1
      rw [h1]
      exact hacc (q1, q2) rfl
    · have h2 := hacc (q1, q2) rfl
      cases hp
      exact h2

lemma registerMainHandlersFold_list (m ty c : Nat) :
    ∀ (bits : List Nat) (acc : Option (SigState × Nat)) (L : List OMRUnixAsyncHandlerRecord),
      (∀ p, acc = some p → p.1.asyncHandlerList = L) →
      ∀ p, bits.foldl (fun a b => registerMainHandlersBit m ty c b a) acc = some p →
        p.1.asyncHandlerList = L := by
  intro bits
  induction bits with
  | nil => intro acc L hacc p hp; exact hacc p hp
  | cons b rest ih =>
    intro acc L hacc p hp
    rw [List.foldl_cons] at hp
    exact ih _ L (fun q hq => registerMainHandlersBit_list m ty c b acc L hacc q hq) p hp

lemma registerMainHandlers_list (f allowed : Nat) (s : SigState) (p : SigState × Nat)
    (h : registerMainHandlers f allowed s = some p) :
    p.1.asyncHandlerList = s.asyncHandlerList := by
  unfold registerMainHandlers at h
  dsimp only at h
  repeat' split at h
  all_goals first
    | exact registerMainHandlersFold_list _ _ _ _ _ _
        (fun q hq => by injection hq with hq2; rw [← hq2]) p h
    | (injection h with h2; rw [← h2])
    | exact absurd h (by simp)

/-- C5: an ambiguous flags word (non-zero with the sync and async
indicator bits both set or both clear) makes every public entry point
that receives it return OMRPORT_SIG_ERROR with the dispatcher state
unchanged: omrsig_can_protect fails, omrsig_protect fails without
calling the protected function, both async-handler setters and the OS
handler registration return the error with the state untouched, and
omrsig_is_signal_ignored fails reporting false. -/
theorem ambiguous_flags_reject (flags : Nat) (s : SigState)
    (h : checkForAmbiguousSignalFlags flags = true) :
    omrsig_can_protect flags s = OMRPORT_SIG_ERROR ∧
    (∀ fn handler handler_arg, omrsig_protect fn handler handler_arg flags s =
      { rc := OMRPORT_SIG_ERROR, state := s, fnCalled := false, result := 0 }) ∧
    (∀ portLibrary handler handler_arg,
      omrsig_set_async_signal_handler portLibrary handler handler_arg flags s =
        (OMRPORT_SIG_ERROR, s)) ∧
    (∀ portLibrary handler handler_arg,
      omrsig_set_single_async_signal_handler portLibrary handler handler_arg flags s =
        (OMRPORT_SIG_ERROR, s)) ∧
    (∀ newOSHandlerCode, omrsig_register_os_handler flags newOSHandlerCode s =
      (OMRPORT_SIG_ERROR, s)) ∧
    omrsig_is_signal_ignored flags s = (OMRPORT_SIG_ERROR, false) := by
  have hne : (flags != 0) = true := by
    unfold checkForAmbiguousSignalFlags at h
    exact ((Bool.and_eq_true _ _).mp h).1
  have hz : (flags == 0) = false := by
    cases hq : flags == 0
    · rfl
    · rw [bne, hq] at hne
      exact absurd hne (by decide)
  refine ⟨?_, ?_, ?_, ?_, ?_, ?_⟩
  · simp [omrsig_can_protect, h]
  · intro fn handler handler_arg
    simp [omrsig_protect, h]
  · intro portLibrary handler handler_arg
    simp [omrsig_set_async_signal_handler, h]
  · intro portLibrary handler handler_arg
    unfold omrsig_set_single_async_signal_handler
    cases hb : OMR_IS_ONLY_ONE_BIT_SET (flags &&& compl32 OMRPORT_SIG_FLAG_CONTROL_BITS_MASK)
    · simp [hne, hb]
    · simp [hne, hb, h]
  · intro newOSHandlerCode
    unfold omrsig_register_os_handler
    cases hb : OMR_IS_ONLY_ONE_BIT_SET (flags &&& compl32 OMRPORT_SIG_FLAG_CONTROL_BITS_MASK)
    · simp [hz, hb]
    · simp [hz, hb, h]
  · unfold omrsig_is_signal_ignored
    cases hb : OMR_IS_ONLY_ONE_BIT_SET (flags &&& compl32 OMRPORT_SIG_FLAG_CONTROL_BITS_MASK)
    · simp [hne, hb]
    · simp [hne, hb, h]

theorem ambiguous_flags_reject_witness :
    checkForAmbiguousSignalFlags 12 = true ∧
    omrsig_can_protect 12 sW = OMRPORT_SIG_ERROR ∧
    omrsig_set_async_signal_handler 1 7 0 12 sW = (OMRPORT_SIG_ERROR, sW) ∧
    omrsig_is_signal_ignored 12 sW = (OMRPORT_SIG_ERROR, false) := by
  have h := ambiguous_flags_reject 12 sW (by decide)
  exact ⟨by decide, h.1, h.2.2.1 1 7 0, h.2.2.2.2.2⟩

/-! ### Ordering of async handler registration and invocation -/

lemma setAsyncWalk_fresh (pl hd a f : Nat) :
    ∀ (l : List OMRUnixAsyncHandlerRecord),
      (∀ r ∈ l, ¬(r.portLib = pl ∧ r.handler = hd ∧ r.handler_arg = a)) →
      setAsyncWalk pl hd a f l = none := by
  intro l
  induction l with
  | nil => intro hfresh; rfl
  | cons c rest ih =>
    intro hfresh
    have hc : (c.portLib == pl && c.handler == hd && c.handler_arg == a) = false := by
      rw [Bool.eq_false_iff]
      intro hh
      simp only [Bool.and_eq_true, beq_iff_eq] at hh
      exact hfresh c (List.mem_cons_self c rest) ⟨hh.1.1, hh.1.2, hh.2⟩
    simp [setAsyncWalk, hc, ih (fun r hr => hfresh r (List.mem_cons_of_mem c hr))]

lemma set_async_list_fresh (pl hd a f : Nat) (l : List OMRUnixAsyncHandlerRecord)
    (hfresh : ∀ r ∈ l, ¬(r.portLib = pl ∧ r.handler = hd ∧ r.handler_arg = a))
    (hf : f ≠ 0) :
    omrsig_set_async_signal_handler_list pl hd a f l =
      l ++ [{ portLib := pl, handler := hd, handler_arg := a, flags := f }] := by
  unfold omrsig_set_async_signal_handler_list
  rw [setAsyncWalk_fresh pl hd a f l hfresh]
  simp [hf]

lemma registerAll_append (regs : List OMRUnixAsyncHandlerRecord) :
    ∀ (l : List OMRUnixAsyncHandlerRecord),
      (∀ r1 ∈ regs, ∀ r2 ∈ l,
        ¬(r2.portLib = r1.portLib ∧ r2.handler = r1.handler ∧ r2.handler_arg = r1.handler_arg)) →
      regs.Pairwise (fun r1 r2 =>
        ¬(r1.portLib = r2.portLib ∧ r1.handler = r2.handler ∧ r1.handler_arg = r2.handler_arg)) →
      (∀ r ∈ regs, r.flags ≠ 0) →
      registerAll regs l = l ++ regs := by
  induction regs with
  | nil =>
    intro l hf hp hfl
    simp [registerAll]
  | cons r rest ih =>
    intro l hf hp hfl
    unfold registerAll
    rw [List.foldl_cons]
    have hstep : omrsig_set_async_signal_handler_list r.portLib r.handler r.handler_arg r.flags l =
        l ++ [r] := by
      rw [set_async_list_fresh r.portLib r.handler r.handler_arg r.flags l
        (fun r2 hr2 => hf r (List.mem_cons_self r rest) r2 hr2)
        (hfl r (List.mem_cons_self r rest))]
    rw [hstep]
    have hf2 : ∀ r1 ∈ rest, ∀ r2 ∈ l ++ [r],
        ¬(r2.portLib = r1.portLib ∧ r2.handler = r1.handler ∧ r2.handler_arg = r1.handler_arg) := by
      intro r1 h1 r2 h2
      rcases List.mem_append.mp h2 with h2l | h2r
      · exact hf r1 (List.mem_cons_of_mem r h1) r2 h2l
      · have h2e : r2 = r := by simpa using h2r
        subst h2e
        exact (List.pairwise_cons.mp hp).1 r1 h1
    have h6 := ih (l ++ [r]) hf2 (List.pairwise_cons.mp hp).2
      (fun q hq => hfl q (List.mem_cons_of_mem r hq))
    unfold registerAll at h6
    rw [h6]
    simp

lemma runHandlersInvocations_filter (sig : Nat) :
    ∀ (l : List OMRUnixAsyncHandlerRecord),
      runHandlersInvocations sig l = l.filter (fun r => OMR_ARE_ALL_BITS_SET r.flags sig) := by
  intro l
  induction l with
  | nil => rfl
  | cons c rest ih =>
    simp only [runHandlersInvocations, List.filter_cons]
    by_cases hcb : OMR_ARE_ALL_BITS_SET c.flags sig = true
    · simp [hcb, ih]
    · simp [hcb, ih]

/-- C10: registration appends fresh records at the tail of the handler
list and runHandlers walks the list from its head, so when an async
signal is delivered the registered handlers whose masks cover it are
invoked in first-registration order: over any history of pairwise
distinct registrations starting from the empty list, the invocation
sequence is exactly the registration sequence filtered to the handlers
whose mask covers the delivered flag. -/
theorem async_handlers_invoked_in_registration_order
    (regs : List OMRUnixAsyncHandlerRecord) (sig : Nat)
    (hdist : regs.Pairwise (fun r1 r2 =>
      ¬(r1.portLib = r2.portLib ∧ r1.handler = r2.handler ∧ r1.handler_arg = r2.handler_arg)))
    (hfl : ∀ r ∈ regs, r.flags ≠ 0) :
    runHandlersInvocations sig (registerAll regs []) =
      regs.filter (fun r => OMR_ARE_ALL_BITS_SET r.flags sig) := by
  rw [registerAll_append regs []
    (fun r1 h1 r2 h2 => absurd h2 (List.not_mem_nil r2)) hdist hfl]
  rw [List.nil_append, runHandlersInvocations_filter]

theorem async_handlers_invoked_in_registration_order_witness :
    runHandlersInvocations OMRPORT_SIG_FLAG_SIGTERM (registerAll regsW []) =
      [⟨1, 10, 0, OMRPORT_SIG_FLAG_SIGTERM⟩,
       ⟨1, 11, 0, OMRPORT_SIG_FLAG_SIGTERM ||| OMRPORT_SIG_FLAG_SIGHUP⟩] := by
  rw [async_handlers_invoked_in_registration_order regsW OMRPORT_SIG_FLAG_SIGTERM
    (by decide) (by decide)]
  decide

/-! ### Capture and restoration of the original OS dispositions -/

lemma shutdownRestoreIndex_other (i sig : Nat) (hne : sig ≠ i) (t : SigState) :
    (shutdownRestoreIndex i t).oldActions sig = t.oldActions sig ∧
    (shutdownRestoreIndex i t).osAction sig = t.osAction sig := by
  unfold shutdownRestoreIndex unsetBitMaskSignalsWithHandlers
    unsetBitMaskSignalsWithMainHandlers
  dsimp only
  repeat' split
  all_goals exact ⟨by simp [hne], by simp [hne]⟩

lemma shutdownRestoreIndex_self (sig : Nat) (t : SigState) (act : Nat)
    (h : t.oldActions sig = some act) :
    (shutdownRestoreIndex sig t).osAction sig = act ∧
    (shutdownRestoreIndex sig t).oldActions sig = none := by
  unfold shutdownRestoreIndex unsetBitMaskSignalsWithHandlers
    unsetBitMaskSignalsWithMainHandlers
  rw [h]
  dsimp only
  repeat' split
  all_goals exact ⟨by simp, by simp⟩

lemma shutdownRestoreIndex_none (i : Nat) (t : SigState) (h : t.oldActions i = none) :
    shutdownRestoreIndex i t = t := by
  unfold shutdownRestoreIndex
  rw [h]

lemma shutdownFold_frozen (sig act : Nat) :
    ∀ (idxs : List Nat) (t : SigState),
      t.oldActions sig = none → t.osAction sig = act →
      ((idxs.foldl (fun u i => shutdownRestoreIndex i u) t).osAction sig = act ∧
       (idxs.foldl (fun u i => shutdownRestoreIndex i u) t).oldActions sig = none) := by
  intro idxs
  induction idxs with
  | nil => intro t h1 h2; exact ⟨h2, h1⟩
  | cons i rest ih =>
    intro t h1 h2
    rw [List.foldl_cons]
    by_cases hi : sig = i
    · subst hi
      rw [shutdownRestoreIndex_none sig t h1]
      exact ih t h1 h2
    · have hp := shutdownRestoreIndex_other i sig hi t
      exact ih (shutdownRestoreIndex i t) (by rw [hp.1]; exact h1) (by rw [hp.2]; exact h2)

lemma shutdownFold_restores (sig act : Nat) :
    ∀ (idxs : List Nat) (t : SigState),
      t.oldActions sig = some act → sig ∈ idxs →
      ((idxs.foldl (fun u i => shutdownRestoreIndex i u) t).osAction sig = act ∧
       (idxs.foldl (fun u i => shutdownRestoreIndex i u) t).oldActions sig = none) := by
  intro idxs
  induction idxs with
  | nil => intro t h1 hm; exact absurd hm (List.not_mem_nil sig)
  | cons i rest ih =>
    intro t h1 hm
    rw [List.foldl_cons]
    by_cases hi : sig = i
    · subst hi
      have hs := shutdownRestoreIndex_self sig t act h1
      exact shutdownFold_frozen sig act rest (shutdownRestoreIndex sig t) hs.2 hs.1
    · have hp := shutdownRestoreIndex_other i sig hi t
      have hm2 : sig ∈ rest := by
        rcases List.mem_cons.mp hm with he | hr
        · exact absurd he hi
        · exact hr
      exact ih (shutdownRestoreIndex i t) (by rw [hp.1]; exact h1) hm2

lemma mem_shutdown_range (sig : Nat) (hlo : 1 ≤ sig) (hhi : sig < ARRAY_SIZE_SIGNALS) :
    sig ∈ (List.range ARRAY_SIZE_SIGNALS).drop 1 := by
  unfold ARRAY_SIZE_SIGNALS at hhi ⊢
  have h65 : (65 : Nat) = 64 + 1 := rfl
  rw [h65, List.range_succ_eq_map, List.drop_succ_cons, List.drop_zero, List.mem_map]
  exact ⟨sig - 1, List.mem_range.mpr (by omega), by omega⟩

lemma applyRegs_inv (ops : List (Nat × Nat)) :
    ∀ (t : SigState) (sig : Nat),
      (applyRegs ops t).attachedPortLibraries = t.attachedPortLibraries ∧
      (t.oldActions sig = none →
        ((applyRegs ops t).oldActions sig = none ∧
         (applyRegs ops t).osAction sig = t.osAction sig) ∨
        (applyRegs ops t).oldActions sig = some (t.osAction sig)) ∧
      (∀ act, t.oldActions sig = some act → (applyRegs ops t).oldActions sig = some act) := by
  induction ops with
  | nil =>
    intro t sig
    exact ⟨rfl, fun h => Or.inl ⟨h, rfl⟩, fun act h => h⟩
  | cons op rest ih =>
    intro t sig
    unfold applyRegs
    rw [List.foldl_cons]
    cases hre : registerSignalHandlerWithOS op.1 op.2 t with
    | none =>
      dsimp only
      have h7 := ih t sig
      unfold applyRegs at h7
      exact h7
    | some p =>
      obtain ⟨p1, p2⟩ := p
      dsimp only
      cases hm : mapPortLibSignalToOSSignal op.1 with
      | none =>
        rw [registerSignalHandlerWithOS_none op.1 op.2 t hm] at hre
        exact absurd hre (by simp)
      | some u =>
        obtain ⟨t1, hreg, hos, hold, hatt, -⟩ :=
          registerSignalHandlerWithOS_char op.1 op.2 t u hm
        rw [hreg] at hre
        injection hre with hre2
        injection hre2 with hre3 hre4
        subst hre3
        have h8 := ih t1 sig
        unfold applyRegs at h8
        refine ⟨?_, ?_, ?_⟩
        · rw [h8.1, hatt]
        · intro hnone
          by_cases hsu : sig = u
          · subst hsu
            have h9 : t1.oldActions sig = some (t.osAction sig) := by
              rw [hold]
              simp [hnone]
            exact Or.inr (h8.2.2 (t.osAction sig) h9)
          · have h9 : t1.oldActions sig = none := by
              rw [hold]
              simp [hsu, hnone]
            have h10 : t1.osAction sig = t.osAction sig := by
              rw [hos]
              simp [hsu]
            rcases h8.2.1 h9 with ⟨ha, hb⟩ | hc
            · exact Or.inl ⟨ha, by rw [hb, h10]⟩
            · exact Or.inr (by rw [hc, h10])
        · intro act hact
          by_cases hsu : sig = u
          · subst hsu
            have h9 : t1.oldActions sig = some act := by
              rw [hold]
              simp [hact]
            exact h8.2.2 act h9
          · have h9 : t1.oldActions sig = some act := by
              rw [hold]
              simp [hsu, hact]
            exact h8.2.2 act h9

/-- C6: over any history of main-handler installations performed after
the first omrsig_startup, the OS disposition in effect before the first
installation for a Unix signal is the only value ever held in that
signal's oldActions slot (later re-installations do not overwrite it),
and the final sig_full_shutdown writes it back: afterwards the OS
disposition of the signal is again the originally captured one and the
restore flag of the slot is clear. -/
theorem original_disposition_restored (s : SigState) (ops : List (Nat × Nat))
    (portLibrary sig : Nat) (h0 : s.attachedPortLibraries = 0)
    (hlo : 1 ≤ sig) (hhi : sig < ARRAY_SIZE_SIGNALS) :
    (∀ act, (applyRegs ops (omrsig_startup s)).oldActions sig = some act →
      act = s.osAction sig) ∧
    (sig_full_shutdown portLibrary (applyRegs ops (omrsig_startup s))).osAction sig =
      s.osAction sig ∧
    (sig_full_shutdown portLibrary (applyRegs ops (omrsig_startup s))).oldActions sig = none := by
  have hs0 : omrsig_startup s =
      { s with attachedPortLibraries := 1, oldActions := fun _ => none } := by
    simp [omrsig_startup, h0]
  rw [hs0]
  have hinv := applyRegs_inv ops
    { s with attachedPortLibraries := 1, oldActions := fun _ => none } sig
  have hAatt : (applyRegs ops
      { s with attachedPortLibraries := 1, oldActions := fun _ => none }).attachedPortLibraries =
      1 := hinv.1
  have hc1 : ∀ act, (applyRegs ops
      { s with attachedPortLibraries := 1, oldActions := fun _ => none }).oldActions sig =
      some act → act = s.osAction sig := by
    intro act hact
    rcases hinv.2.1 rfl with ⟨hn, -⟩ | hr
    · rw [hact] at hn
      exact absurd hn (by simp)
    · rw [hact] at hr
      injection hr
  refine ⟨hc1, ?_⟩
  unfold sig_full_shutdown
  rw [hAatt]
  have hcond : ((1 : Nat) - 1 == 0) = true := rfl
  rw [if_pos hcond]
  dsimp only
  cases hA : (applyRegs ops
      { s with attachedPortLibraries := 1, oldActions := fun _ => none }).oldActions sig with
  | none =>
    rcases hinv.2.1 rfl with ⟨h5, h6⟩ | h7
    · have hres := shutdownFold_frozen sig (s.osAction sig)
        ((List.range ARRAY_SIZE_SIGNALS).drop 1)
        { applyRegs ops { s with attachedPortLibraries := 1, oldActions := fun _ => none } with
            attachedPortLibraries := 1 - 1 } hA h6
      exact ⟨hres.1, hres.2⟩
    · rw [hA] at h7
      exact absurd h7 (by simp)
  | some act =>
    have hres := shutdownFold_restores sig act
      ((List.range ARRAY_SIZE_SIGNALS).drop 1)
      { applyRegs ops { s with attachedPortLibraries := 1, oldActions := fun _ => none } with
          attachedPortLibraries := 1 - 1 } hA (mem_shutdown_range sig hlo hhi)
    exact ⟨hres.1.trans (hc1 act hA), hres.2⟩

theorem original_disposition_restored_witness :
    (∀ act, (applyRegs opsC6W (omrsig_startup sC6W)).oldActions 15 = some act →
      act = sC6W.osAction 15) ∧
    (sig_full_shutdown 1 (applyRegs opsC6W (omrsig_startup sC6W))).osAction 15 =
      sC6W.osAction 15 ∧
    (sig_full_shutdown 1 (applyRegs opsC6W (omrsig_startup sC6W))).oldActions 15 = none :=
  original_disposition_restored sC6W opsC6W 1 15 rfl (by decide) (by decide)

/-! ### The exclusive-bit discipline of the single async handler setter -/

lemma setSingleWalk_fst (pl hd a f : Nat) (hf0 : (f == 0) = false) :
    ∀ (l : List OMRUnixAsyncHandlerRecord),
      (setSingleWalk pl hd a f l).1 = l.map (singleUpdate pl hd a f) := by
  intro l
  induction l with
  | nil => rfl
  | cons c rest ih =>
    simp only [setSingleWalk, List.map_cons]
    by_cases h1 : (c.portLib == pl) = true
    · by_cases h2 : (c.handler == hd && c.handler_arg == a) = true
      · simp [singleUpdate, h1, h2, hf0, ih]
      · simp [singleUpdate, h1, h2, ih]
    · simp [singleUpdate, h1, ih]

lemma setSingleWalk_snd (pl hd a f : Nat) (hf0 : (f == 0) = false) :
    ∀ (l : List OMRUnixAsyncHandlerRecord),
      (setSingleWalk pl hd a f l).2 =
        l.any (fun r => r.portLib == pl && (r.handler == hd && r.handler_arg == a)) := by
  intro l
  induction l with
  | nil => rfl
  | cons c rest ih =>
    simp only [setSingleWalk, List.any_cons]
    by_cases h1 : (c.portLib == pl) = true
    · by_cases h2 : (c.handler == hd && c.handler_arg == a) = true
      · simp [h1, h2, hf0]
      · simp [h1, h2, ih]
    · simp [h1, ih]

lemma single_list_char (pl hd a f : Nat) (hf0 : (f == 0) = false)
    (l : List OMRUnixAsyncHandlerRecord) :
    omrsig_set_single_async_signal_handler_list pl hd a f l =
      if l.any (fun r => r.portLib == pl && (r.handler == hd && r.handler_arg == a)) then
        l.map (singleUpdate pl hd a f)
      else
        l.map (singleUpdate pl hd a f) ++
          [{ portLib := pl, handler := hd, handler_arg := a, flags := f }] := by
  unfold omrsig_set_single_async_signal_handler_list
  dsimp only
  rw [setSingleWalk_fst pl hd a f hf0 l, setSingleWalk_snd pl hd a f hf0 l]
  by_cases hA : l.any (fun r => r.portLib == pl && (r.handler == hd && r.handler_arg == a)) = true
  · simp [hA]
  · simp [hA, hf0, bne]

lemma singleUpdate_bit (pl hd a f : Nat) (hf32 : f < 4294967296)
    (hB0 : f &&& compl32 OMRPORT_SIG_FLAG_CONTROL_BITS_MASK ≠ 0)
    (r : OMRUnixAsyncHandlerRecord) :
    ((singleUpdate pl hd a f r).portLib == pl &&
      OMR_ARE_ALL_BITS_SET (singleUpdate pl hd a f r).flags
        (f &&& compl32 OMRPORT_SIG_FLAG_CONTROL_BITS_MASK)) =
      (r.portLib == pl && (r.handler == hd && r.handler_arg == a)) := by
  have hBlt : f &&& compl32 OMRPORT_SIG_FLAG_CONTROL_BITS_MASK < 4294967296 :=
    lt_of_le_of_lt Nat.and_le_left hf32
  unfold singleUpdate
  by_cases h1 : (r.portLib == pl) = true
  · rw [if_pos h1]
    by_cases h2 : (r.handler == hd && r.handler_arg == a) = true
    · rw [if_pos h2]
      dsimp only
      rw [h1, h2, allBits_or_masked]
    · rw [if_neg h2]
      dsimp only
      rw [h1, allBits_cleared_false r.flags _ hB0 hBlt, Bool.eq_false_iff.mpr h2]
  · rw [if_neg h1]
    rw [Bool.eq_false_iff.mpr h1]
    rw [Bool.false_and, Bool.false_and]

lemma singleUpdate_cleared (pl hd a f : Nat) (hf32 : f < 4294967296)
    (r0 : OMRUnixAsyncHandlerRecord)
    (hpl : (singleUpdate pl hd a f r0).portLib = pl)
    (hne : (singleUpdate pl hd a f r0).handler ≠ hd ∨
      (singleUpdate pl hd a f r0).handler_arg ≠ a) :
    (singleUpdate pl hd a f r0).flags &&&
      (f &&& compl32 OMRPORT_SIG_FLAG_CONTROL_BITS_MASK) = 0 := by
  have hBlt : f &&& compl32 OMRPORT_SIG_FLAG_CONTROL_BITS_MASK < 4294967296 :=
    lt_of_le_of_lt Nat.and_le_left hf32
  unfold singleUpdate at hpl hne ⊢
  by_cases h1 : (r0.portLib == pl) = true
  · rw [if_pos h1] at hne ⊢
    by_cases h2 : (r0.handler == hd && r0.handler_arg == a) = true
    · rw [if_pos h2] at hne
      have h2p := (Bool.and_eq_true _ _).mp h2
      rcases hne with hh | hh
      · exact absurd (beq_iff_eq.mp h2p.1) hh
      · exact absurd (beq_iff_eq.mp h2p.2) hh
    · rw [if_neg h2]
      exact and_compl32_and_self r0.flags _ hBlt
  · rw [if_neg h1] at hpl
    rw [hpl] at h1
    exact absurd (beq_self_eq_true pl) h1

lemma single_list_count (pl hd a f : Nat) (hf : f ≠ 0) (hf32 : f < 4294967296)
    (hB0 : f &&& compl32 OMRPORT_SIG_FLAG_CONTROL_BITS_MASK ≠ 0)
    (l : List OMRUnixAsyncHandlerRecord)
    (hkey : l.countP (fun r => r.portLib == pl && (r.handler == hd && r.handler_arg == a)) ≤ 1) :
    (omrsig_set_single_async_signal_handler_list pl hd a f l).countP
      (fun r => r.portLib == pl &&
        OMR_ARE_ALL_BITS_SET r.flags (f &&& compl32 OMRPORT_SIG_FLAG_CONTROL_BITS_MASK)) = 1 := by
  have hf0 : (f == 0) = false := by
    cases hq : f == 0
    · rfl
    · exact absurd (beq_iff_eq.mp hq) hf
  rw [single_list_char pl hd a f hf0 l]
  have hfun : ((fun r => r.portLib == pl &&
      OMR_ARE_ALL_BITS_SET r.flags (f &&& compl32 OMRPORT_SIG_FLAG_CONTROL_BITS_MASK)) ∘
        singleUpdate pl hd a f) =
      (fun r => r.portLib == pl && (r.handler == hd && r.handler_arg == a)) := by
    funext r
    exact singleUpdate_bit pl hd a f hf32 hB0 r
  have hmapc : (l.map (singleUpdate pl hd a f)).countP
      (fun r => r.portLib == pl &&
        OMR_ARE_ALL_BITS_SET r.flags (f &&& compl32 OMRPORT_SIG_FLAG_CONTROL_BITS_MASK)) =
      l.countP (fun r => r.portLib == pl && (r.handler == hd && r.handler_arg == a)) := by
    rw [List.countP_map, hfun]
  split
  · rename_i hany
    rw [hmapc]
    have hpos := List.countP_pos_iff.mpr (List.any_eq_true.mp hany)
    omega
  · rename_i hany
    rw [List.countP_append, hmapc]
    have hz2 : l.countP (fun r => r.portLib == pl &&
        (r.handler == hd && r.handler_arg == a)) = 0 :=
      List.countP_eq_zero.mpr (List.any_eq_false.mp (Bool.eq_false_iff.mpr hany))
    have hfr : OMR_ARE_ALL_BITS_SET f (f &&& compl32 OMRPORT_SIG_FLAG_CONTROL_BITS_MASK) = true :=
      allBits_self_masked f (compl32 OMRPORT_SIG_FLAG_CONTROL_BITS_MASK)
    rw [hz2]
    simp [List.countP_cons, hfr]

lemma single_list_cleared (pl hd a f : Nat) (hf : f ≠ 0) (hf32 : f < 4294967296)
    (l : List OMRUnixAsyncHandlerRecord) :
    ∀ r ∈ omrsig_set_single_async_signal_handler_list pl hd a f l,
      r.portLib = pl → (r.handler ≠ hd ∨ r.handler_arg ≠ a) →
      r.flags &&& (f &&& compl32 OMRPORT_SIG_FLAG_CONTROL_BITS_MASK) = 0 := by
  have hf0 : (f == 0) = false := by
    cases hq : f == 0
    · rfl
    · exact absurd (beq_iff_eq.mp hq) hf
  rw [single_list_char pl hd a f hf0 l]
  intro r hr hpl hne
  by_cases hany :
      l.any (fun r => r.portLib == pl && (r.handler == hd && r.handler_arg == a)) = true
  · rw [if_pos hany] at hr
    obtain ⟨r0, hr0, heq⟩ := List.mem_map.mp hr
    subst heq
    exact singleUpdate_cleared pl hd a f hf32 r0 hpl hne
  · rw [if_neg hany] at hr
    rcases List.mem_append.mp hr with hm | hm
    · obtain ⟨r0, hr0, heq⟩ := List.mem_map.mp hm
      subst heq
      exact singleUpdate_cleared pl hd a f hf32 r0 hpl hne
    · have he : r = ⟨pl, hd, a, f⟩ := by simpa using hm
      rcases hne with hh | hh
      · exact absurd (by rw [he]) hh
      · exact absurd (by rw [he]) hh

lemma err_ne_zero_pair (x y : SigState)
    (h : ((OMRPORT_SIG_ERROR, x) : Int × SigState) = (0, y)) : False := by
  have h1 : OMRPORT_SIG_ERROR = (0 : Int) := congrArg Prod.fst h
  exact absurd h1 (by decide)

/-- C4 (amended): a successful omrsig_set_single_async_signal_handler
call with a non-zero single-bit flag leaves exactly one record of the
calling port library whose mask holds the signal bit (the record for the
handler and argument, created when absent), and clears that bit from
every other record of the same port library; records of other port
libraries are not touched by the walk, so the claim is restricted to the
calling port library and to lists holding at most one record per
(library, handler, argument) key. -/
theorem single_async_handler_exclusive_bit (pl hd a f : Nat) (s s1 : SigState)
    (hf : f ≠ 0) (hf32 : f < 4294967296)
    (hkey : s.asyncHandlerList.countP
      (fun r => r.portLib == pl && (r.handler == hd && r.handler_arg == a)) ≤ 1)
    (h : omrsig_set_single_async_signal_handler pl hd a f s = (0, s1)) :
    s1.asyncHandlerList.countP
      (fun r => r.portLib == pl &&
        OMR_ARE_ALL_BITS_SET r.flags (f &&& compl32 OMRPORT_SIG_FLAG_CONTROL_BITS_MASK)) = 1 ∧
    ∀ r ∈ s1.asyncHandlerList, r.portLib = pl →
      (r.handler ≠ hd ∨ r.handler_arg ≠ a) →
      r.flags &&& (f &&& compl32 OMRPORT_SIG_FLAG_CONTROL_BITS_MASK) = 0 := by
  have hf0 : (f == 0) = false := by
    cases hq : f == 0
    · rfl
    · exact absurd (beq_iff_eq.mp hq) hf
  have hfne : (f != 0) = true := by simp [bne, hf0]
  unfold omrsig_set_single_async_signal_handler at h
  rw [hfne] at h
  cases hob : OMR_IS_ONLY_ONE_BIT_SET (f &&& compl32 OMRPORT_SIG_FLAG_CONTROL_BITS_MASK) with
  | false =>
    rw [hob] at h
    exact (err_ne_zero_pair s s1 h).elim
  | true =>
    rw [hob] at h
    have hB0 : f &&& compl32 OMRPORT_SIG_FLAG_CONTROL_BITS_MASK ≠ 0 :=
      onebit_ne_zero _ hob
    cases hamb : checkForAmbiguousSignalFlags f with
    | true =>
      rw [hamb] at h
      exact (err_ne_zero_pair s s1 h).elim
    | false =>
      rw [hamb] at h
      simp only [Bool.not_true, Bool.and_false] at h
      rw [if_neg (by decide), if_neg (by decide)] at h
      split at h
      · rename_i heq
        exact (err_ne_zero_pair s s1 h).elim
      · rename_i s2 heq
        have hs1 : s1 = { s2 with asyncHandlerList :=
            omrsig_set_single_async_signal_handler_list pl hd a f s2.asyncHandlerList } :=
          (congrArg Prod.snd h).symm
        subst hs1
        have hs2l : s2.asyncHandlerList = s.asyncHandlerList := by
          repeat' split at heq
          all_goals first
            | exact Option.noConfusion heq
            | (rename_i x y hm1
               injection heq with he2
               subst he2
               exact registerMainHandlers_list _ _ _ _ hm1)
        refine ⟨?_, ?_⟩
        · dsimp only
          rw [hs2l]
          exact single_list_count pl hd a f hf hf32 hB0 s.asyncHandlerList hkey
        · dsimp only
          rw [hs2l]
          exact single_list_cleared pl hd a f hf hf32 s.asyncHandlerList

/-- C4 counterexample to the unrestricted claim: with an existing record
of a different port library already holding the SIGQUIT signal bit, a
successful exclusive registration of SIGQUIT for a new handler leaves
two records whose masks hold the bit — the walk of lines 575 to 603
clears the bit only from records of the calling port library. -/
theorem single_async_exclusive_counterexample :
    (omrsig_set_single_async_signal_handler 1 7 0 OMRPORT_SIG_FLAG_SIGQUIT sC4X).1 = 0 ∧
    ((omrsig_set_single_async_signal_handler 1 7 0
        OMRPORT_SIG_FLAG_SIGQUIT sC4X).2.asyncHandlerList.countP
      (fun r => OMR_ARE_ALL_BITS_SET r.flags
        (OMRPORT_SIG_FLAG_SIGQUIT &&& compl32 OMRPORT_SIG_FLAG_CONTROL_BITS_MASK))) = 2 := by
  constructor
  · decide
  · decide

theorem single_async_handler_exclusive_bit_witness :
    (omrsig_set_single_async_signal_handler 1 7 0
        OMRPORT_SIG_FLAG_SIGQUIT sC4W).2.asyncHandlerList.countP
      (fun r => r.portLib == 1 &&
        OMR_ARE_ALL_BITS_SET r.flags
          (OMRPORT_SIG_FLAG_SIGQUIT &&& compl32 OMRPORT_SIG_FLAG_CONTROL_BITS_MASK)) = 1 := by
  have h1 : (omrsig_set_single_async_signal_handler 1 7 0 OMRPORT_SIG_FLAG_SIGQUIT sC4W).1 = 0 := by
    decide
  have h2 : omrsig_set_single_async_signal_handler 1 7 0 OMRPORT_SIG_FLAG_SIGQUIT sC4W =
      (0, (omrsig_set_single_async_signal_handler 1 7 0 OMRPORT_SIG_FLAG_SIGQUIT sC4W).2) :=
    Prod.ext h1 rfl
  exact (single_async_handler_exclusive_bit 1 7 0 OMRPORT_SIG_FLAG_SIGQUIT sC4W
    (omrsig_set_single_async_signal_handler 1 7 0 OMRPORT_SIG_FLAG_SIGQUIT sC4W).2
    (by decide) (by decide) (by decide) h2).1

end OMRSig
